import Mathlib

/-!
Verification development for the deterministic-first autonomous agent
(classifier `src/classifier.js`, orchestrator `src/orchestrator.js`).

The JavaScript sources are shallowly embedded:
* JS numbers are modelled as exact rationals `ℚ` (all scoring arithmetic in the
  source uses small decimal literals; the embedding treats them exactly).
* JS regular expressions are embedded as an AST (`Rx`) together with a
  fuel-bounded backtracking matcher reproducing the leftmost-first,
  greedy/lazy semantics of the JS engine, including word boundaries,
  anchors and capture groups.
* JS dynamic values (tool results, parsed JSON, trace entries) are modelled
  by the inductive type `JsVal`.
* Exceptions are modelled with `Except`; `try`/`catch` becomes a `match`.
-/

namespace AgentV3

/-! ### Character classes (JS semantics, ASCII fragment) -/

/-- JS `\w`: `[A-Za-z0-9_]`. -/
def wordChar (c : Char) : Bool :=
  c.isAlpha || c.isDigit || c = '_'

/-- JS `\s` (ASCII fragment: space, tab, LF, CR, VT, FF). -/
def jsSpace (c : Char) : Bool :=
  c = ' ' || c = '\t' || c = '\n' || c = '\x0d' || c = '\x0b' || c = '\x0c'

/-- JS `.` without the `s` flag: any char except line terminators. -/
def dotChar (c : Char) : Bool :=
  !(c = '\n' || c = '\x0d')

/-! ### Regex AST

`Rx` is the abstract syntax of the (small) fragment of JS regexes the
sources use.  Case-insensitive matching (`i` flag) is realised at leaf
level by the smart constructors below. -/

inductive Rx where
  /-- empty word -/
  | eps : Rx
  /-- single character from a class -/
  | cls (p : Char → Bool) : Rx
  /-- concatenation -/
  | cat (a b : Rx) : Rx
  /-- alternation; the left branch is preferred (JS order) -/
  | alt (a b : Rx) : Rx
  /-- greedy Kleene star `*` -/
  | starG (a : Rx) : Rx
  /-- lazy Kleene star `*?` -/
  | starL (a : Rx) : Rx
  /-- capturing group `(...)` with 1-based index -/
  | grp (idx : Nat) (a : Rx) : Rx
  /-- word boundary `\b` -/
  | wordB : Rx
  /-- string start `^` (no `m` flag) -/
  | bos : Rx
  /-- string end `$` (no `m` flag) -/
  | eos : Rx

/-- Captures recorded so far: group index paired with captured characters.
Most recent entry first; lookup takes the first hit. -/
abbrev Caps := List (Nat × List Char)

/-- Is the (optional) character a word character?  Out-of-string counts as
non-word, per JS `\b`. -/
def isWordOpt : Option Char → Bool
  | none => false
  | some c => wordChar c

/-- Fuel-bounded CPS backtracking matcher.  `prev` is the character just
before the current position (`none` at string start), `rest` the remaining
input.  The continuation receives the updated `prev`, `rest` and captures;
the first success in JS backtracking order wins. -/
def mrun {α : Type} : Nat → Rx → Option Char → List Char → Caps →
    (Option Char → List Char → Caps → Option α) → Option α
  | 0, _, _, _, _, _ => none
  | fuel + 1, rx, prev, rest, caps, k =>
    match rx with
    | .eps => k prev rest caps
    | .cls p =>
      match rest with
      | [] => none
      | c :: rs => if p c then k (some c) rs caps else none
    | .cat a b =>
      mrun fuel a prev rest caps fun p' r' c' => mrun fuel b p' r' c' k
    | .alt a b =>
      (mrun fuel a prev rest caps k).orElse fun _ => mrun fuel b prev rest caps k
    | .starG a =>
      (mrun fuel a prev rest caps fun p' r' c' =>
        if r'.length = rest.length then none else mrun fuel (.starG a) p' r' c' k).orElse
        fun _ => k prev rest caps
    | .starL a =>
      (k prev rest caps).orElse fun _ =>
        mrun fuel a prev rest caps fun p' r' c' =>
          if r'.length = rest.length then none else mrun fuel (.starL a) p' r' c' k
    | .grp n a =>
      mrun fuel a prev rest caps fun p' r' c' =>
        k p' r' ((n, rest.take (rest.length - r'.length)) :: c')
    | .wordB =>
      if isWordOpt prev ≠ isWordOpt rest.head? then k prev rest caps else none
    | .bos => if prev = none then k prev rest caps else none
    | .eos => if rest = [] then k prev rest caps else none

/-- Fuel that is always sufficient for the patterns in the sources:
every quantified subexpression consumes at least one character per
iteration, so recursion depth is bounded well below this. -/
def rxFuel (rest : List Char) : Nat :=
  1000 + 200 * rest.length

/-- One match attempt anchored at the current position. -/
def tryMatchAt (rx : Rx) (prev : Option Char) (rest : List Char) :
    Option (List Char × Caps × Option Char × List Char) :=
  mrun (rxFuel rest) rx prev rest [] fun p' r' c' =>
    some (rest.take (rest.length - r'.length), c', p', r')

/-- Leftmost match search from the current position (JS `RegExp`
scanning).  Returns matched characters, captures, and the continuation
state after the match. -/
def searchFrom (rx : Rx) :
    Option Char → List Char → Option (List Char × Caps × Option Char × List Char)
  | prev, rest =>
    match tryMatchAt rx prev rest with
    | some res => some res
    | none =>
      match rest with
      | [] => none
      | c :: rs => searchFrom rx (some c) rs

/-- JS `regex.test(s)`. -/
def rtest (rx : Rx) (s : String) : Bool :=
  (searchFrom rx none s.toList).isSome

/-- JS `s.match(regex)` without the `g` flag: leftmost match with captures.
Returns the full match and the capture list. -/
def rmatch (rx : Rx) (s : String) : Option (List Char × Caps) :=
  (searchFrom rx none s.toList).map fun r => (r.1, r.2.1)

/-- Capture group lookup: JS `m[i]`, `none` for a group that did not
participate. -/
def capGet (caps : Caps) (i : Nat) : Option String :=
  (caps.find? fun p => p.1 = i).map fun p => String.mk p.2

/-- JS `s.match(regex_with_g_flag)`: all matches (full-match strings only),
scanning from the end of each previous match; an empty match advances the
scan by one character, as `lastIndex` does. -/
def rmatchAllAux (rx : Rx) : Nat → Option Char → List Char → List (List Char)
  | 0, _, _ => []
  | fuel + 1, prev, rest =>
    match searchFrom rx prev rest with
    | none => []
    | some (m, _, p', r') =>
      if m.isEmpty then
        m :: (match r' with
              | [] => []
              | c :: rs => rmatchAllAux rx fuel (some c) rs)
      else m :: rmatchAllAux rx fuel p' r'

/-- All matches of `rx` in `s`, as strings. -/
def rmatchAll (rx : Rx) (s : String) : List String :=
  (rmatchAllAux rx (s.length + 1) none s.toList).map String.mk

/-! ### Smart constructors used to transcribe the source regex literals -/

/-- Case-insensitive literal character (used under the `i` flag). -/
def chi (c : Char) : Rx :=
  .cls fun x => x.toLower = c.toLower

/-- Case-sensitive literal character. -/
def chx (c : Char) : Rx :=
  .cls fun x => x = c

/-- Case-insensitive literal string. -/
def lit (s : String) : Rx :=
  (s.toList.map chi).foldr .cat .eps

/-- Concatenation of a list of regexes. -/
def rcat (rs : List Rx) : Rx :=
  rs.foldr .cat .eps

/-- Alternation of a list of regexes, left branch preferred. -/
def ralt : List Rx → Rx
  | [] => .cls fun _ => false
  | [r] => r
  | r :: rs => .alt r (ralt rs)

/-- Alternation of case-insensitive literal words, e.g. `(clone|pull|push)`. -/
def words (ws : List String) : Rx :=
  ralt (ws.map lit)

/-- Greedy option `?`. -/
def ropt (a : Rx) : Rx :=
  .alt a .eps

/-- Greedy `+`. -/
def rplus (a : Rx) : Rx :=
  .cat a (.starG a)

/-- Lazy `+?`. -/
def rplusL (a : Rx) : Rx :=
  .cat a (.starL a)

/-- `\w` -/
def rW : Rx := .cls wordChar

/-- `\s` -/
def rS : Rx := .cls jsSpace

/-- `\S` -/
def rNS : Rx := .cls fun c => !jsSpace c

/-- `.` -/
def rDot : Rx := .cls dotChar

/-- `.*` (greedy) -/
def rDotStar : Rx := .starG rDot

/-- `\s+` -/
def rSp : Rx := rplus rS

/-- `[\w.-]` (used by the file-path patterns) -/
def wDotDash : Rx := .cls fun c => wordChar c || c = '.' || c = '-'

/-- `[\w@/.-]` (used by the npm-package pattern) -/
def wPkg : Rx := .cls fun c => wordChar c || c = '@' || c = '/' || c = '.' || c = '-'

/-- apostrophe character (written by code point to keep the file lexer-friendly) -/
def apos : Char := Char.ofNat 39

/-! ### Task-type definitions (classifier.js `TASK_TYPES`)

Each entry transcribes the corresponding JS object literal; the original
regex literal is given in the comment above each pattern list entry. -/

structure TaskType where
  id : String
  patterns : List Rx
  keywords : List String
  tools : List String
  confidence_boost : ℚ

/-- `TASK_TYPES.FILE_READ` -/
def FILE_READ : TaskType where
  id := "file_read"
  patterns := [
    -- /\bread\b.*\bfile\b/i
    rcat [.wordB, lit "read", .wordB, rDotStar, .wordB, lit "file", .wordB],
    -- /\bshow\b.*\b(contents?|file|code)\b/i
    rcat [.wordB, lit "show", .wordB, rDotStar, .wordB,
      .grp 1 (ralt [rcat [lit "content", ropt (chi 's')], lit "file", lit "code"]), .wordB],
    -- /\bcat\b\s+\S+/i
    rcat [.wordB, lit "cat", .wordB, rSp, rplus rNS],
    -- /\bview\b.*\b(file|source|code)\b/i
    rcat [.wordB, lit "view", .wordB, rDotStar, .wordB, .grp 1 (words ["file", "source", "code"]), .wordB],
    -- /\bopen\b.*\b(file|document)\b/i
    rcat [.wordB, lit "open", .wordB, rDotStar, .wordB, .grp 1 (words ["file", "document"]), .wordB],
    -- /\bdisplay\b.*\b(file|contents?)\b/i
    rcat [.wordB, lit "display", .wordB, rDotStar, .wordB,
      .grp 1 (ralt [lit "file", rcat [lit "content", ropt (chi 's')]]), .wordB],
    -- /\bwhat('?s| is) in\b.*\b(file|folder|directory)\b/i
    rcat [.wordB, lit "what",
      .grp 1 (ralt [rcat [ropt (chx apos), chi 's'], lit " is"]),
      lit " in", .wordB, rDotStar, .wordB,
      .grp 2 (words ["file", "folder", "directory"]), .wordB],
    -- /\blist\b.*\b(files?|directory|folder|dir)\b/i
    rcat [.wordB, lit "list", .wordB, rDotStar, .wordB,
      .grp 1 (ralt [rcat [lit "file", ropt (chi 's')], lit "directory", lit "folder", lit "dir"]), .wordB],
    -- /\bls\b\s/i
    rcat [.wordB, lit "ls", .wordB, rS]]
  keywords := ["read", "show", "view", "cat", "display", "contents", "open", "list", "ls", "dir"]
  tools := ["read_file", "list_directory"]
  confidence_boost := 0.1

/-- `TASK_TYPES.FILE_WRITE` -/
def FILE_WRITE : TaskType where
  id := "file_write"
  patterns := [
    -- /\b(create|write|save|make)\b.*\bfile\b/i
    rcat [.wordB, .grp 1 (words ["create", "write", "save", "make"]), .wordB, rDotStar,
      .wordB, lit "file", .wordB],
    -- /\bwrite\b.*\bto\b/i
    rcat [.wordB, lit "write", .wordB, rDotStar, .wordB, lit "to", .wordB],
    -- /\bsave\b.*\b(as|to)\b/i
    rcat [.wordB, lit "save", .wordB, rDotStar, .wordB, .grp 1 (words ["as", "to"]), .wordB],
    -- /\bcreate\b.*\b(file|script|module|component)\b/i
    rcat [.wordB, lit "create", .wordB, rDotStar, .wordB,
      .grp 1 (words ["file", "script", "module", "component"]), .wordB],
    -- /\bgenerate\b.*\b(file|code|script)\b/i
    rcat [.wordB, lit "generate", .wordB, rDotStar, .wordB,
      .grp 1 (words ["file", "code", "script"]), .wordB],
    -- /\badd\b.*\bfile\b/i
    rcat [.wordB, lit "add", .wordB, rDotStar, .wordB, lit "file", .wordB],
    -- /\bnew\b.*\b(file|script)\b/i
    rcat [.wordB, lit "new", .wordB, rDotStar, .wordB, .grp 1 (words ["file", "script"]), .wordB]]
  keywords := ["create", "write", "save", "generate", "new file", "make file"]
  tools := ["create_file"]
  confidence_boost := 0.1

/-- `TASK_TYPES.FILE_EDIT` -/
def FILE_EDIT : TaskType where
  id := "file_edit"
  patterns := [
    -- /\b(edit|modify|update|change|fix|patch|refactor)\b.*\b(file|code|function|class|line)\b/i
    rcat [.wordB, .grp 1 (words ["edit", "modify", "update", "change", "fix", "patch", "refactor"]),
      .wordB, rDotStar, .wordB, .grp 2 (words ["file", "code", "function", "class", "line"]), .wordB],
    -- /\b(edit|fix|modify|update|patch)\b\s+\S+\.\w+/i
    rcat [.wordB, .grp 1 (words ["edit", "fix", "modify", "update", "patch"]), .wordB,
      rSp, rplus rNS, chx '.', rplus rW],
    -- /\b(fix|debug)\b.*\b(bug|issue|error|problem)\b.*\b(in)\b/i
    rcat [.wordB, .grp 1 (words ["fix", "debug"]), .wordB, rDotStar, .wordB,
      .grp 2 (words ["bug", "issue", "error", "problem"]), .wordB, rDotStar, .wordB,
      .grp 3 (lit "in"), .wordB],
    -- /\breplace\b.*\b(in|with)\b/i
    rcat [.wordB, lit "replace", .wordB, rDotStar, .wordB, .grp 1 (words ["in", "with"]), .wordB],
    -- /\binsert\b.*\b(into|at|before|after)\b/i
    rcat [.wordB, lit "insert", .wordB, rDotStar, .wordB,
      .grp 1 (words ["into", "at", "before", "after"]), .wordB],
    -- /\bremove\b.*\b(from|line|function)\b/i
    rcat [.wordB, lit "remove", .wordB, rDotStar, .wordB,
      .grp 1 (words ["from", "line", "function"]), .wordB],
    -- /\bdelete\b.*\b(line|function|block)\b/i
    rcat [.wordB, lit "delete", .wordB, rDotStar, .wordB,
      .grp 1 (words ["line", "function", "block"]), .wordB],
    -- /\bappend\b.*\bto\b/i
    rcat [.wordB, lit "append", .wordB, rDotStar, .wordB, lit "to", .wordB]]
  keywords := ["edit", "modify", "update", "change", "fix", "refactor", "replace", "insert", "append"]
  tools := ["edit_file", "read_file"]
  confidence_boost := 0.2

/-- `TASK_TYPES.SHELL_COMMAND` -/
def SHELL_COMMAND : TaskType where
  id := "shell_command"
  patterns := [
    -- /\brun\b.*\b(command|script|npm|node|python|bash|shell)\b/i
    rcat [.wordB, lit "run", .wordB, rDotStar, .wordB,
      .grp 1 (words ["command", "script", "npm", "node", "python", "bash", "shell"]), .wordB],
    -- /\bexecute\b/i
    rcat [.wordB, lit "execute", .wordB],
    -- /\binstall\b.*\b(package|dependency|module|npm|pip)\b/i
    rcat [.wordB, lit "install", .wordB, rDotStar, .wordB,
      .grp 1 (words ["package", "dependency", "module", "npm", "pip"]), .wordB],
    -- /\bnpm\b\s+(install|run|start|test|build|init|publish|audit)/i
    rcat [.wordB, lit "npm", .wordB, rSp,
      .grp 1 (words ["install", "run", "start", "test", "build", "init", "publish", "audit"])],
    -- /\bpip\b\s+install/i
    rcat [.wordB, lit "pip", .wordB, rSp, lit "install"],
    -- /\bgit\b\s+(clone|pull|push|commit|status|log|diff|branch|checkout)/i
    rcat [.wordB, lit "git", .wordB, rSp,
      .grp 1 (words ["clone", "pull", "push", "commit", "status", "log", "diff", "branch", "checkout"])],
    -- /\bdocker\b\s+(build|run|compose|pull|push)/i
    rcat [.wordB, lit "docker", .wordB, rSp,
      .grp 1 (words ["build", "run", "compose", "pull", "push"])],
    -- /\bcurl\b\s/i
    rcat [.wordB, lit "curl", .wordB, rS],
    -- /\bwget\b\s/i
    rcat [.wordB, lit "wget", .wordB, rS],
    -- /\bchmod\b/i
    rcat [.wordB, lit "chmod", .wordB],
    -- /\bmkdir\b/i
    rcat [.wordB, lit "mkdir", .wordB],
    -- /\bnpx\b\s/i
    rcat [.wordB, lit "npx", .wordB, rS]]
  keywords := ["run", "execute", "install", "npm", "pip", "git", "docker", "curl", "bash", "shell", "command"]
  tools := ["run_command"]
  confidence_boost := 0.2

/-- `TASK_TYPES.HTTP_REQUEST` -/
def HTTP_REQUEST : TaskType where
  id := "http_request"
  patterns := [
    -- /\b(fetch|get|post|put|delete|patch)\b.*\b(api|endpoint|url|http)/i
    rcat [.wordB, .grp 1 (words ["fetch", "get", "post", "put", "delete", "patch"]), .wordB,
      rDotStar, .wordB, .grp 2 (words ["api", "endpoint", "url", "http"])],
    -- /\bcall\b.*\b(api|endpoint|service)\b/i
    rcat [.wordB, lit "call", .wordB, rDotStar, .wordB,
      .grp 1 (words ["api", "endpoint", "service"]), .wordB],
    -- /\brequest\b.*\b(to|from)\b.*\b(api|url|http)/i
    rcat [.wordB, lit "request", .wordB, rDotStar, .wordB, .grp 1 (words ["to", "from"]),
      .wordB, rDotStar, .wordB, .grp 2 (words ["api", "url", "http"])],
    -- /\bhttp[s]?:\/\//i
    rcat [.wordB, lit "http", ropt (chi 's'), lit "://"],
    -- /\bapi\b.*\b(call|request|fetch)\b/i
    rcat [.wordB, lit "api", .wordB, rDotStar, .wordB,
      .grp 1 (words ["call", "request", "fetch"]), .wordB],
    -- /\bwebhook\b/i
    rcat [.wordB, lit "webhook", .wordB]]
  keywords := ["fetch", "api", "endpoint", "request", "http", "url", "webhook", "REST"]
  tools := ["http_request"]
  confidence_boost := 0.15

/-- `TASK_TYPES.CODE_ANALYSIS` -/
def CODE_ANALYSIS : TaskType where
  id := "code_analysis"
  patterns := [
    -- /\b(analyse|analyze|review|inspect|audit|lint|check)\b.*\b(code|file|function|module|project)\b/i
    rcat [.wordB,
      .grp 1 (words ["analyse", "analyze", "review", "inspect", "audit", "lint", "check"]),
      .wordB, rDotStar, .wordB,
      .grp 2 (words ["code", "file", "function", "module", "project"]), .wordB],
    -- /\bfind\b.*\b(bugs?|issues?|errors?|problems?)\b/i
    rcat [.wordB, lit "find", .wordB, rDotStar, .wordB,
      .grp 1 (ralt [rcat [lit "bug", ropt (chi 's')], rcat [lit "issue", ropt (chi 's')],
        rcat [lit "error", ropt (chi 's')], rcat [lit "problem", ropt (chi 's')]]), .wordB],
    -- /\bcode\b.*\b(review|quality|smell)\b/i
    rcat [.wordB, lit "code", .wordB, rDotStar, .wordB,
      .grp 1 (words ["review", "quality", "smell"]), .wordB],
    -- /\bwhat\b.*\b(does|is)\b.*\b(this|the)\b.*\b(code|function|class)\b/i
    rcat [.wordB, lit "what", .wordB, rDotStar, .wordB, .grp 1 (words ["does", "is"]), .wordB,
      rDotStar, .wordB, .grp 2 (words ["this", "the"]), .wordB, rDotStar, .wordB,
      .grp 3 (words ["code", "function", "class"]), .wordB],
    -- /\bexplain\b.*\b(code|function|class|module)\b/i
    rcat [.wordB, lit "explain", .wordB, rDotStar, .wordB,
      .grp 1 (words ["code", "function", "class", "module"]), .wordB],
    -- /\bdebug\b/i
    rcat [.wordB, lit "debug", .wordB]]
  keywords := ["analyse", "review", "inspect", "audit", "lint", "debug", "explain code", "code review"]
  tools := ["read_file", "search_files", "run_command"]
  confidence_boost := 0.05

/-- `TASK_TYPES.PROJECT_SCAFFOLD` -/
def PROJECT_SCAFFOLD : TaskType where
  id := "project_scaffold"
  patterns := [
    -- /\b(scaffold|bootstrap|initialise|initialize|setup|set up|start)\b.*\b(project|app|application|repo|repository)\b/i
    rcat [.wordB,
      .grp 1 (words ["scaffold", "bootstrap", "initialise", "initialize", "setup", "set up", "start"]),
      .wordB, rDotStar, .wordB,
      .grp 2 (words ["project", "app", "application", "repo", "repository"]), .wordB],
    -- /\bnew\b.*\b(project|app|application)\b/i
    rcat [.wordB, lit "new", .wordB, rDotStar, .wordB,
      .grp 1 (words ["project", "app", "application"]), .wordB],
    -- /\bcreate\b.*\b(project|app|application|repo)\b/i
    rcat [.wordB, lit "create", .wordB, rDotStar, .wordB,
      .grp 1 (words ["project", "app", "application", "repo"]), .wordB],
    -- /\binit\b/i
    rcat [.wordB, lit "init", .wordB]]
  keywords := ["scaffold", "bootstrap", "initialise", "setup", "new project", "create app", "init"]
  tools := ["run_command", "create_file", "run_command"]
  confidence_boost := 0.1

/-- `TASK_TYPES.SEARCH` -/
def SEARCH : TaskType where
  id := "search"
  patterns := [
    -- /\b(search|find|grep|look for|locate)\b.*\b(in|for|across)\b/i
    rcat [.wordB, .grp 1 (words ["search", "find", "grep", "look for", "locate"]), .wordB,
      rDotStar, .wordB, .grp 2 (words ["in", "for", "across"]), .wordB],
    -- /\bwhere\b.*\b(is|are|does)\b/i
    rcat [.wordB, lit "where", .wordB, rDotStar, .wordB, .grp 1 (words ["is", "are", "does"]), .wordB],
    -- /\bgrep\b/i
    rcat [.wordB, lit "grep", .wordB],
    -- /\bfind\b.*\b(file|function|class|variable|string|text|pattern)\b/i
    rcat [.wordB, lit "find", .wordB, rDotStar, .wordB,
      .grp 1 (words ["file", "function", "class", "variable", "string", "text", "pattern"]), .wordB]]
  keywords := ["search", "find", "grep", "locate", "where is"]
  tools := ["search_files", "run_command"]
  confidence_boost := 0.1

/-- `TASK_TYPES.TESTING` -/
def TESTING : TaskType where
  id := "testing"
  patterns := [
    -- /\b(test|spec|assert|verify|validate)\b/i
    rcat [.wordB, .grp 1 (words ["test", "spec", "assert", "verify", "validate"]), .wordB],
    -- /\brun\b.*\btests?\b/i
    rcat [.wordB, lit "run", .wordB, rDotStar, .wordB, lit "test", ropt (chi 's'), .wordB],
    -- /\bwrite\b.*\b(test|spec)\b/i
    rcat [.wordB, lit "write", .wordB, rDotStar, .wordB, .grp 1 (words ["test", "spec"]), .wordB],
    -- /\bunit\s*test/i
    rcat [.wordB, lit "unit", .starG rS, lit "test"],
    -- /\bintegration\s*test/i
    rcat [.wordB, lit "integration", .starG rS, lit "test"],
    -- /\bcoverage\b/i
    rcat [.wordB, lit "coverage", .wordB]]
  keywords := ["test", "spec", "assert", "verify", "coverage", "unit test", "integration test"]
  tools := ["run_command", "create_file", "read_file"]
  confidence_boost := 0.1

/-- `TASK_TYPES.DEPLOYMENT` -/
def DEPLOYMENT : TaskType where
  id := "deployment"
  patterns := [
    -- /\b(deploy|release|publish|ship|push to)\b.*\b(production|staging|server|cloud|npm|docker)\b/i
    rcat [.wordB, .grp 1 (words ["deploy", "release", "publish", "ship", "push to"]), .wordB,
      rDotStar, .wordB,
      .grp 2 (words ["production", "staging", "server", "cloud", "npm", "docker"]), .wordB],
    -- /\bbuild\b.*\b(for|and)\b.*\b(production|deploy)/i
    rcat [.wordB, lit "build", .wordB, rDotStar, .wordB, .grp 1 (words ["for", "and"]), .wordB,
      rDotStar, .wordB, .grp 2 (words ["production", "deploy"])],
    -- /\bci\/?cd\b/i
    rcat [.wordB, lit "ci", ropt (chx '/'), lit "cd", .wordB],
    -- /\bpipeline\b/i
    rcat [.wordB, lit "pipeline", .wordB]]
  keywords := ["deploy", "release", "publish", "ship", "production", "staging", "CI/CD", "pipeline"]
  tools := ["run_command", "create_file"]
  confidence_boost := 0.1

/-- `Object.entries(TASK_TYPES)` in declaration order. -/
def TASK_TYPES : List TaskType :=
  [FILE_READ, FILE_WRITE, FILE_EDIT, SHELL_COMMAND, HTTP_REQUEST,
   CODE_ANALYSIS, PROJECT_SCAFFOLD, SEARCH, TESTING, DEPLOYMENT]

/-! ### Entity extraction regexes (classifier.js top level) -/

/-- `FILE_PATH_PATTERN = /(?:^|\s)((?:\.{0,2}\/)?(?:[\w.-]+\/)*[\w.-]+\.[\w]+)(?:\s|$)/`
(case-sensitive; it contains no cased literals). -/
def FILE_PATH_PATTERN : Rx :=
  rcat [.alt .bos rS,
    .grp 1 (rcat [
      -- (?:\.{0,2}\/)?  with greedy {0,2}
      ropt (rcat [ropt (.cat (chx '.') (ropt (chx '.'))), chx '/']),
      .starG (rcat [rplus wDotDash, chx '/']),
      rplus wDotDash, chx '.', rplus rW]),
    .alt rS .eos]

/-- `ABSOLUTE_PATH_PATTERN = /(?:^|\s)(\/(?:[\w.-]+\/)*[\w.-]+)(?:\s|$)/` -/
def ABSOLUTE_PATH_PATTERN : Rx :=
  rcat [.alt .bos rS,
    .grp 1 (rcat [chx '/', .starG (rcat [rplus wDotDash, chx '/']), rplus wDotDash]),
    .alt rS .eos]

/-- `URL_PATTERN = /https?:\/\/[^\s]+/i` -/
def URL_PATTERN : Rx :=
  rcat [lit "http", ropt (chi 's'), lit "://", rplus rNS]

/-- `/npm\s+install\s+([\w@/.-]+(?:\s+[\w@/.-]+)*)/i` -/
def NPM_INSTALL_PATTERN : Rx :=
  rcat [lit "npm", rSp, lit "install", rSp,
    .grp 1 (rcat [rplus wPkg, .starG (rcat [rSp, rplus wPkg])])]

/-- `/pip\s+install\s+([\w.-]+(?:\s+[\w.-]+)*)/i` -/
def PIP_INSTALL_PATTERN : Rx :=
  rcat [lit "pip", rSp, lit "install", rSp,
    .grp 1 (rcat [rplus wDotDash, .starG (rcat [rSp, rplus wDotDash])])]

/-- `/git\s+(clone|pull|push|commit|status|log|diff|branch|checkout|merge|rebase|stash|tag)(?:\s+(.+?))?(?:\s*$)/i` -/
def GIT_PATTERN : Rx :=
  rcat [lit "git", rSp,
    .grp 1 (words ["clone", "pull", "push", "commit", "status", "log", "diff", "branch",
      "checkout", "merge", "rebase", "stash", "tag"]),
    ropt (rcat [rSp, .grp 2 (rplusL rDot)]),
    rcat [.starG rS, .eos]]

/-! ### Planner regexes (classifier.js `planFromIntent`) -/

/-- `/npm/i` -/
def NPM_TEXT_PATTERN : Rx := lit "npm"

/-- `/\b(post|put|patch|delete)\b/i` -/
def HTTP_METHOD_PATTERN : Rx :=
  rcat [.wordB, .grp 1 (words ["post", "put", "patch", "delete"]), .wordB]

/-- `/(?:search|find|grep|look for|locate)\s+(?:for\s+)?["']?(.+?)["']?\s+(?:in|across|within)/i` -/
def SEARCH_TERM_PATTERN : Rx :=
  rcat [words ["search", "find", "grep", "look for", "locate"], rSp,
    ropt (rcat [lit "for", rSp]),
    ropt (.cls fun c => c = '"' || c = apos),
    .grp 1 (rplusL rDot),
    ropt (.cls fun c => c = '"' || c = apos),
    rSp, words ["in", "across", "within"]]

/-- `/\brun\b.*\btests?\b/i` -/
def RUN_TESTS_PATTERN : Rx :=
  rcat [.wordB, lit "run", .wordB, rDotStar, .wordB, lit "test", ropt (chi 's'), .wordB]

/-- `new RegExp(URL_PATTERN, 'g')` as used in `extractEntities`: the second
argument of the `RegExp` constructor replaces the original flags, so the
global scan for URLs is case-sensitive even though `URL_PATTERN` carries
`i`. -/
def URL_PATTERN_G : Rx :=
  rcat [rcat ("http".toList.map chx), ropt (chx 's'), rcat ("://".toList.map chx), rplus rNS]

/-! ### String helpers with JS semantics -/

/-- Does `hay` start with `needle` (character-exact)? -/
def startsWithChars : List Char → List Char → Bool
  | [], _ => true
  | _ :: _, [] => false
  | n :: ns, h :: hs => n = h && startsWithChars ns hs

def containsChars (needle : List Char) : List Char → Bool
  | [] => needle.isEmpty
  | h :: t => startsWithChars needle (h :: t) || containsChars needle t

/-- JS `hay.includes(needle)`. -/
def strIncludes (hay needle : String) : Bool :=
  containsChars needle.toList hay.toList

/-- JS `s.split(/\s+/)` for strings that neither start nor end with
whitespace (the only use site splits a captured group of non-space-delimited
words, which satisfies this). -/
def jsSplitWs (s : String) : List String :=
  (s.split fun c => jsSpace c).filter fun t => t ≠ ""

/-! ### Entity extraction (classifier.js `extractEntities`) -/

structure GitOp where
  operation : String
  args : String
deriving DecidableEq, Repr

structure Entities where
  filePaths : List String
  urls : List String
  commands : List String
  packages : List String
  gitOps : List GitOp
deriving DecidableEq, Repr

/-- `extractEntities(input)`: structured fragments pulled from raw text. -/
def extractEntities (input : String) : Entities :=
  let relMatches := rmatchAll FILE_PATH_PATTERN input
  let absMatches := rmatchAll ABSOLUTE_PATH_PATTERN input
  let filePaths := relMatches.map (·.trim) ++ absMatches.map (·.trim)
  let urls := rmatchAll URL_PATTERN_G input
  let npmPkgs :=
    match rmatch NPM_INSTALL_PATTERN input with
    | some (_, caps) => jsSplitWs ((capGet caps 1).getD "")
    | none => []
  let pipPkgs :=
    match rmatch PIP_INSTALL_PATTERN input with
    | some (_, caps) => jsSplitWs ((capGet caps 1).getD "")
    | none => []
  let gitOps :=
    match rmatch GIT_PATTERN input with
    | some (_, caps) =>
      [{ operation := ((capGet caps 1).getD "").toLower
         args := match capGet caps 2 with
           | some a => a.trim
           | none => "" }]
    | none => []
  { filePaths := filePaths, urls := urls, commands := [], packages := npmPkgs ++ pipPkgs,
    gitOps := gitOps }

/-! ### Scoring (classifier.js `scoreTaskTypes`) -/

structure Scored where
  taskType : String
  confidence : ℚ
  matchedPatterns : Nat
  matchedKeywords : Nat
  tools : List String
  entities : Entities
deriving DecidableEq, Repr

/-- Loop body of `scoreTaskTypes` for a single task type: pattern hits add
`0.3` each, keyword substring hits add `0.1` each, then the four
entity-boost `if`s, then `Math.min(score, 1.0)`. -/
def scoreOne (input inputLower : String) (entities : Entities) (t : TaskType) : Scored :=
  let p := t.patterns.foldl
    (fun (acc : ℚ × Nat) pat => if rtest pat input then (acc.1 + 0.3, acc.2 + 1) else acc)
    ((0 : ℚ), (0 : Nat))
  let k := t.keywords.foldl
    (fun (acc : ℚ × Nat) kw => if strIncludes inputLower kw.toLower then (acc.1 + 0.1, acc.2 + 1) else acc)
    (p.1, (0 : Nat))
  let s1 := if 0 < entities.filePaths.length ∧
      t.id ∈ ["file_read", "file_write", "file_edit", "code_analysis"] then
    k.1 + t.confidence_boost else k.1
  let s2 := if 0 < entities.urls.length ∧ t.id = "http_request" then
    s1 + t.confidence_boost else s1
  let s3 := if 0 < entities.gitOps.length ∧ t.id = "shell_command" then
    s2 + t.confidence_boost else s2
  let s4 := if 0 < entities.packages.length ∧ t.id = "shell_command" then
    s3 + t.confidence_boost else s3
  { taskType := t.id, confidence := min s4 1, matchedPatterns := p.2, matchedKeywords := k.2,
    tools := t.tools, entities := entities }

/-- Comparator model of `scores.sort((a, b) => b.confidence - a.confidence)`:
descending by confidence.  `Array.prototype.sort` is stable, which
`List.insertionSort` with this relation reproduces. -/
def confGe (a b : Scored) : Prop :=
  b.confidence ≤ a.confidence

instance : DecidableRel confGe := fun a b =>
  inferInstanceAs (Decidable (b.confidence ≤ a.confidence))

instance : IsTotal Scored confGe :=
  ⟨fun a b => le_total b.confidence a.confidence⟩

instance : IsTrans Scored confGe :=
  ⟨fun _ _ _ h1 h2 => le_trans h2 h1⟩

/-- Candidates accumulated in definition-table order, before sorting
(the `if (confidence > 0) scores.push(...)` loop). -/
def preScores (input : String) : List Scored :=
  let inputLower := input.toLower
  let entities := extractEntities input
  (TASK_TYPES.map (scoreOne input inputLower entities)).filter fun s => 0 < s.confidence

/-- `scoreTaskTypes(input)`: scored candidates, sorted descending by
confidence with a stable sort. -/
def scoreTaskTypes (input : String) : List Scored :=
  List.insertionSort confGe (preScores input)

/-! ### Classification (classifier.js `classify`) -/

structure Classification where
  intent : String
  confidence : ℚ
  needsModel : Bool
  reason : String
  tools : List String
  entities : Entities
  allScores : List Scored
deriving DecidableEq, Repr

/-- `classify(input, threshold = 0.4)`.  The JS default `threshold` value
`0.4` is passed explicitly by every caller modelled here. -/
def classify (input : String) (threshold : ℚ) : Classification :=
  match scoreTaskTypes input with
  | [] =>
    { intent := "unknown", confidence := 0, needsModel := true, reason := "no_pattern_match",
      tools := [], entities := extractEntities input, allScores := [] }
  | top :: rest =>
    if threshold ≤ top.confidence then
      -- scores.length > 1 && (top.confidence - scores[1].confidence) < 0.1
      let isAmbiguous :=
        match rest with
        | [] => false
        | second :: _ => decide (top.confidence - second.confidence < 0.1)
      { intent := top.taskType, confidence := top.confidence, needsModel := isAmbiguous,
        reason := if isAmbiguous then "ambiguous_top_scores" else "deterministic_match",
        tools := top.tools, entities := top.entities, allScores := (top :: rest).take 3 }
    else
      { intent := top.taskType, confidence := top.confidence, needsModel := true,
        reason := "low_confidence", tools := top.tools, entities := top.entities,
        allScores := (top :: rest).take 3 }

/-! ### Dynamic JS values

Tool arguments, tool results, parsed JSON and trace entries are dynamic
objects in the source; `JsVal` models them. -/

inductive JsVal where
  | null : JsVal
  | undef : JsVal
  | bool (b : Bool) : JsVal
  | num (q : ℚ) : JsVal
  | str (s : String) : JsVal
  | arr (elems : List JsVal) : JsVal
  | obj (fields : List (String × JsVal)) : JsVal
deriving Repr

/-- JS property access `v.name` (`undefined` when absent or not an object). -/
def JsVal.get (v : JsVal) (name : String) : JsVal :=
  match v with
  | .obj fields =>
    match fields.find? fun f => f.1 = name with
    | some f => f.2
    | none => .undef
  | _ => (.undef : JsVal)

/-- JS array index access `v[i]` (`undefined` when absent). -/
def JsVal.idx (v : JsVal) (i : Nat) : JsVal :=
  match v with
  | .arr elems => (elems.get? i).getD .undef
  | _ => (.undef : JsVal)

/-- JS truthiness. -/
def jsTruthy : JsVal → Bool
  | .null => false
  | .undef => false
  | .bool b => b
  | .num q => decide (q ≠ 0)
  | .str s => s ≠ ""
  | .arr _ => true
  | .obj _ => true

/-- JS `a || b`. -/
def jsOr (a b : JsVal) : JsVal :=
  if jsTruthy a then a else b

/-! ### Planning (classifier.js `planFromIntent`) -/

structure Step where
  tool : String
  args : JsVal
deriving Repr

structure Plan where
  intent : String
  steps : List Step
  requiresModelForPlanning : Bool
deriving Repr

/-- `planFromIntent(classification, input)`: the deterministic decision
tree keyed by intent. -/
def planFromIntent (classification : Classification) (input : String) : Plan :=
  let intent := classification.intent
  let entities := classification.entities
  if intent = "file_read" then
    match entities.filePaths.head? with
    | some target =>
      { intent := intent, steps := [⟨"read_file", .obj [("path", .str target)]⟩],
        requiresModelForPlanning := false }
    | none =>
      -- need model to determine which file
      { intent := intent, steps := [⟨"list_directory", .obj [("path", .str ".")]⟩],
        requiresModelForPlanning := true }
  else if intent = "file_write" then
    match entities.filePaths.head? with
    | some target =>
      -- need model to generate content
      { intent := intent,
        steps := [⟨"create_file", .obj [("path", .str target), ("content", .null)]⟩],
        requiresModelForPlanning := true }
    | none =>
      { intent := intent, steps := [], requiresModelForPlanning := true }
  else if intent = "file_edit" then
    match entities.filePaths.head? with
    | some target =>
      -- need model to determine edits
      { intent := intent,
        steps := [⟨"read_file", .obj [("path", .str target)]⟩,
                  ⟨"edit_file", .obj [("path", .str target), ("edits", .null)]⟩],
        requiresModelForPlanning := true }
    | none =>
      { intent := intent, steps := [], requiresModelForPlanning := true }
  else if intent = "shell_command" then
    match entities.gitOps.head? with
    | some op =>
      -- git operations can be fully deterministic
      { intent := intent,
        steps := [⟨"run_command", .obj [("command",
          .str ("git " ++ op.operation ++ (if op.args ≠ "" then " " ++ op.args else "")))]⟩],
        requiresModelForPlanning := false }
    | none =>
      if 0 < entities.packages.length then
        -- package installs can be fully deterministic
        let isNpm := rtest NPM_TEXT_PATTERN input
        let cmd := if isNpm then "npm install " ++ String.intercalate " " entities.packages
          else "pip install " ++ String.intercalate " " entities.packages
        { intent := intent, steps := [⟨"run_command", .obj [("command", .str cmd)]⟩],
          requiresModelForPlanning := false }
      else
        -- other shell commands need model to compose
        { intent := intent, steps := [], requiresModelForPlanning := true }
  else if intent = "http_request" then
    match entities.urls.head? with
    | some url =>
      let method :=
        match rmatch HTTP_METHOD_PATTERN input with
        | some (_, caps) => ((capGet caps 1).getD "").toUpper
        | none => "GET"
      { intent := intent,
        steps := [⟨"http_request", .obj [("url", .str url), ("method", .str method),
          ("body", .null), ("headers", .obj [])]⟩],
        requiresModelForPlanning := false }
    | none =>
      { intent := intent, steps := [], requiresModelForPlanning := true }
  else if intent = "search" then
    let target := entities.filePaths.head?.getD "."
    match rmatch SEARCH_TERM_PATTERN input with
    | some (_, caps) =>
      { intent := intent,
        steps := [⟨"search_files", .obj [("path", .str target),
          ("pattern", .str (((capGet caps 1).getD "").trim))]⟩],
        requiresModelForPlanning := false }
    | none =>
      { intent := intent, steps := [], requiresModelForPlanning := true }
  else if intent = "testing" then
    if rtest RUN_TESTS_PATTERN input then
      -- "run tests" is deterministic
      { intent := intent, steps := [⟨"run_command", .obj [("command", .str "npm test")]⟩],
        requiresModelForPlanning := false }
    else
      -- writing tests needs model
      { intent := intent, steps := [], requiresModelForPlanning := true }
  else
    { intent := intent, steps := [], requiresModelForPlanning := true }

/-! ### JS string conversion and JSON

`jsToString` models the implicit `String(...)` conversion performed by JS
template literals; `jsonStringify`/`jsonStringifyInd` model
`JSON.stringify` (compact and `null, 2` forms); `jsonParse` models
`JSON.parse` returning `none` where `JSON.parse` throws.  Non-integral
number formatting approximates the JS shortest-round-trip double printing;
no verified statement depends on that branch. -/

/-- JS number-to-string for the values that occur here. -/
def qToString (q : ℚ) : String :=
  if q.den = 1 then toString q.num
  else toString q.num ++ "/" ++ toString q.den

mutual

def jsToString : JsVal → String
  | .null => "null"
  | .undef => "undefined"
  | .bool b => if b then "true" else "false"
  | .num q => qToString q
  | .str s => s
  | .arr xs => String.intercalate "," (jsToStringElems xs)
  | .obj _ => "[object Object]"

/-- `Array.prototype.toString` joins with `,`, printing `null`/`undefined`
elements as the empty string. -/
def jsToStringElems : List JsVal → List String
  | [] => []
  | .null :: xs => "" :: jsToStringElems xs
  | .undef :: xs => "" :: jsToStringElems xs
  | x :: xs => jsToString x :: jsToStringElems xs

end

def escapeJsonChar (c : Char) : String :=
  if c = '"' then "\\\""
  else if c = '\\' then "\\\\"
  else if c = '\n' then "\\n"
  else if c = '\t' then "\\t"
  else if c = '\x0d' then "\\r"
  else String.singleton c

def jsonQuote (s : String) : String :=
  "\"" ++ String.join (s.toList.map escapeJsonChar) ++ "\""

mutual

/-- `JSON.stringify(v)` (compact).  `undefined` has no JSON representation:
`none` models `JSON.stringify` returning `undefined`. -/
def jsonStringify : JsVal → Option String
  | .null => some "null"
  | .undef => none
  | .bool b => some (if b then "true" else "false")
  | .num q => some (qToString q)
  | .str s => some (jsonQuote s)
  | .arr xs => some ("[" ++ String.intercalate "," (jsonElems xs) ++ "]")
  | .obj fs => some ("\x7b" ++ String.intercalate "," (jsonFields fs) ++ "\x7d")

/-- Array elements: `undefined` members are serialised as `null`. -/
def jsonElems : List JsVal → List String
  | [] => []
  | x :: xs => ((jsonStringify x).getD "null") :: jsonElems xs

/-- Object members: properties whose value has no representation are
omitted. -/
def jsonFields : List (String × JsVal) → List String
  | [] => []
  | (nm, v) :: fs =>
    match jsonStringify v with
    | some s => (jsonQuote nm ++ ":" ++ s) :: jsonFields fs
    | none => jsonFields fs

end

def indentSp (lvl : Nat) : String :=
  String.mk (List.replicate (2 * lvl) ' ')

mutual

/-- `JSON.stringify(v, null, 2)`. -/
def jsonStringifyInd (lvl : Nat) : JsVal → Option String
  | .arr [] => some "[]"
  | .arr xs =>
    some ("[\n" ++ String.intercalate ",\n" ((jsonElemsInd (lvl + 1) xs).map (indentSp (lvl + 1) ++ ·)) ++
      "\n" ++ indentSp lvl ++ "]")
  | .obj [] => some "\x7b\x7d"
  | .obj fs =>
    match jsonFieldsInd (lvl + 1) fs with
    | [] => some "\x7b\x7d"
    | items =>
      some ("\x7b\n" ++ String.intercalate ",\n" (items.map (indentSp (lvl + 1) ++ ·)) ++
        "\n" ++ indentSp lvl ++ "\x7d")
  | v => jsonStringify v

def jsonElemsInd (lvl : Nat) : List JsVal → List String
  | [] => []
  | x :: xs => ((jsonStringifyInd lvl x).getD "null") :: jsonElemsInd lvl xs

def jsonFieldsInd (lvl : Nat) : List (String × JsVal) → List String
  | [] => []
  | (nm, v) :: fs =>
    match jsonStringifyInd lvl v with
    | some s => (jsonQuote nm ++ ": " ++ s) :: jsonFieldsInd lvl fs
    | none => jsonFieldsInd lvl fs

end

/-! JSON parsing (`JSON.parse`), fuel-bounded. -/

def jsonSkipWs : List Char → List Char
  | [] => []
  | c :: cs => if c = ' ' || c = '\t' || c = '\n' || c = '\x0d' then jsonSkipWs cs else c :: cs

def hexVal (c : Char) : Option Nat :=
  if c.isDigit then some (c.toNat - 48)
  else if 'a' ≤ c ∧ c ≤ 'f' then some (c.toNat - 87)
  else if 'A' ≤ c ∧ c ≤ 'F' then some (c.toNat - 55)
  else none

def parseStrBody : Nat → List Char → Option (List Char × List Char)
  | 0, _ => none
  | fuel + 1, cs =>
    match cs with
    | [] => none
    | c :: rest =>
      if c = '"' then some ([], rest)
      else if c = '\\' then
        match rest with
        | [] => none
        | e :: rest2 =>
          let dec : Option (Char × List Char) :=
            if e = '"' then some ('"', rest2)
            else if e = '\\' then some ('\\', rest2)
            else if e = '/' then some ('/', rest2)
            else if e = 'n' then some ('\n', rest2)
            else if e = 't' then some ('\t', rest2)
            else if e = 'r' then some ('\x0d', rest2)
            else if e = 'b' then some ('\x08', rest2)
            else if e = 'f' then some ('\x0c', rest2)
            else if e = 'u' then
              match rest2 with
              | h1 :: h2 :: h3 :: h4 :: rest3 =>
                match hexVal h1, hexVal h2, hexVal h3, hexVal h4 with
                | some a, some b, some c2, some d =>
                  some (Char.ofNat (((a * 16 + b) * 16 + c2) * 16 + d), rest3)
                | _, _, _, _ => none
              | _ => none
            else none
          match dec with
          | some (ch, rest') =>
            match parseStrBody fuel rest' with
            | some (s, r) => some (ch :: s, r)
            | none => none
          | none => none
      else
        match parseStrBody fuel rest with
        | some (s, r) => some (c :: s, r)
        | none => none

def spanDigits : List Char → List Char × List Char
  | [] => ([], [])
  | c :: cs =>
    if c.isDigit then
      let (d, r) := spanDigits cs
      (c :: d, r)
    else ([], c :: cs)

def natOfDigits (ds : List Char) : Nat :=
  ds.foldl (fun acc c => acc * 10 + (c.toNat - 48)) 0

def parseJsonNumber (cs : List Char) : Option (ℚ × List Char) :=
  let (neg, cs1) := match cs with
    | '-' :: rest => (true, rest)
    | _ => (false, cs)
  let (intDs, cs2) := spanDigits cs1
  if intDs.isEmpty then none
  else
    let (fracDs, cs3) := match cs2 with
      | '.' :: rest =>
        let (ds, r) := spanDigits rest
        (ds, r)
      | _ => ([], cs2)
    let (expOk, expNeg, expDs, cs4) := match cs3 with
      | 'e' :: rest | 'E' :: rest =>
        match rest with
        | '-' :: rest2 =>
          let (ds, r) := spanDigits rest2
          (!ds.isEmpty, true, ds, r)
        | '+' :: rest2 =>
          let (ds, r) := spanDigits rest2
          (!ds.isEmpty, false, ds, r)
        | _ =>
          let (ds, r) := spanDigits rest
          (!ds.isEmpty, false, ds, r)
      | _ => (true, false, ([] : List Char), cs3)
    if !expOk then none
    else
      let mant : ℚ := (natOfDigits (intDs ++ fracDs) : ℚ) / ((10 : ℚ) ^ fracDs.length)
      let scaled : ℚ :=
        if expDs.isEmpty then mant
        else if expNeg then mant / ((10 : ℚ) ^ natOfDigits expDs)
        else mant * ((10 : ℚ) ^ natOfDigits expDs)
      some ((if neg then -scaled else scaled), cs4)

mutual

def parseJsonVal : Nat → List Char → Option (JsVal × List Char)
  | 0, _ => none
  | fuel + 1, cs =>
    match jsonSkipWs cs with
    | [] => none
    | c :: rest =>
      if c = '"' then
        match parseStrBody (rest.length + 1) rest with
        | some (s, r) => some (.str (String.mk s), r)
        | none => none
      else if c = Char.ofNat 123 then
        parseJsonObj fuel (jsonSkipWs rest) true
      else if c = '[' then
        parseJsonArr fuel (jsonSkipWs rest) true
      else if c = 't' then
        match rest with
        | 'r' :: 'u' :: 'e' :: r => some (.bool true, r)
        | _ => none
      else if c = 'f' then
        match rest with
        | 'a' :: 'l' :: 's' :: 'e' :: r => some (.bool false, r)
        | _ => none
      else if c = 'n' then
        match rest with
        | 'u' :: 'l' :: 'l' :: r => some (.null, r)
        | _ => none
      else
        match parseJsonNumber (c :: rest) with
        | some (q, r) => some (.num q, r)
        | none => none

/-- Object tail parser; `first` is true right after the opening brace. -/
def parseJsonObj : Nat → List Char → Bool → Option (JsVal × List Char)
  | 0, _, _ => none
  | fuel + 1, cs, first =>
    match cs with
    | c :: rest =>
      if c = Char.ofNat 125 ∧ first then some (.obj [], rest)
      else
        match parseJsonMembers (fuel + 1) cs with
        | some (fs, r) =>
          match jsonSkipWs r with
          | c2 :: r2 => if c2 = Char.ofNat 125 then some (.obj fs, r2) else none
          | [] => none
        | none => none
    | [] => none

def parseJsonMembers : Nat → List Char → Option (List (String × JsVal) × List Char)
  | 0, _ => none
  | fuel + 1, cs =>
    match jsonSkipWs cs with
    | '"' :: rest =>
      match parseStrBody (rest.length + 1) rest with
      | some (key, r1) =>
        match jsonSkipWs r1 with
        | ':' :: r2 =>
          match parseJsonVal fuel r2 with
          | some (v, r3) =>
            match jsonSkipWs r3 with
            | ',' :: r4 =>
              match parseJsonMembers fuel r4 with
              | some (fs, r5) => some ((String.mk key, v) :: fs, r5)
              | none => none
            | r4 => some ([(String.mk key, v)], r4)
          | none => none
        | _ => none
      | none => none
    | _ => none

/-- Array tail parser; `first` is true right after the opening bracket. -/
def parseJsonArr : Nat → List Char → Bool → Option (JsVal × List Char)
  | 0, _, _ => none
  | fuel + 1, cs, first =>
    match cs with
    | ']' :: rest =>
      if first then some (.arr [], rest) else none
    | _ =>
      match parseJsonItems (fuel + 1) cs with
      | some (xs, r) =>
        match jsonSkipWs r with
        | ']' :: r2 => some (.arr xs, r2)
        | _ => none
      | none => none

def parseJsonItems : Nat → List Char → Option (List JsVal × List Char)
  | 0, _ => none
  | fuel + 1, cs =>
    match parseJsonVal fuel cs with
    | some (v, r) =>
      match jsonSkipWs r with
      | ',' :: r2 =>
        match parseJsonItems fuel r2 with
        | some (xs, r3) => some (v :: xs, r3)
        | none => none
      | r2 => some ([v], r2)
    | none => none

end

/-- `JSON.parse(s)`; `none` models a thrown `SyntaxError`. -/
def jsonParse (s : String) : Option JsVal :=
  match parseJsonVal (s.length + 1) s.toList with
  | some (v, rest) => if jsonSkipWs rest = [] then some v else none
  | none => none

/-! ### Workflow orchestrator (orchestrator.js)

The injected tool executor and the optional model adapter are opaque
functions; a thrown JS exception is an `Except.error` carrying
`err.message`.  `try { } catch` becomes a `match` on the `Except`. -/

/-- Injected model adapter: `complete(systemPrompt, input)` used by
model-assisted planning, and `processAgentLoop(input)` used by the full
fallback delegation. -/
structure ModelAdapter where
  complete : String → String → Except String String
  processAgentLoop : String → Except String JsVal

/-- One orchestrator instance's collaborators and configuration. -/
structure OrchCfg where
  executeTool : String → JsVal → Except String JsVal
  model : Option ModelAdapter
  confidenceThreshold : ℚ

/-- `this.metrics`, initialised to zeroes at construction. -/
structure Metrics where
  totalTasks : Nat
  deterministicTasks : Nat
  modelFallbacks : Nat
  modelCallsForPlanning : Nat
  modelCallsForResponse : Nat
  errors : Nat
  byIntent : List (String × Nat)
deriving DecidableEq, Repr

def initialMetrics : Metrics :=
  { totalTasks := 0, deterministicTasks := 0, modelFallbacks := 0, modelCallsForPlanning := 0,
    modelCallsForResponse := 0, errors := 0, byIntent := [] }

/-- `this.metrics.byIntent[intent] = (this.metrics.byIntent[intent] || 0) + 1`
on an insertion-ordered property map. -/
def bumpIntent : List (String × Nat) → String → List (String × Nat)
  | [], intent => [(intent, 1)]
  | (k, v) :: rest, intent =>
    if k = intent then (k, v + 1) :: rest else (k, v) :: bumpIntent rest intent

/-- `_trackIntent`. -/
def trackIntent (m : Metrics) (intent : String) : Metrics :=
  { m with byIntent := bumpIntent m.byIntent intent }

/-- `x.toFixed(1)` for the non-negative rationals produced by `_snapshot`
(nearest, ties up — exact-decimal model of `Number.prototype.toFixed`). -/
def toFixed1 (q : ℚ) : String :=
  let n := (⌊q * 10 + 1 / 2⌋).toNat
  toString (n / 10) ++ "." ++ toString (n % 10)

/-- `x.toFixed(2)` for the non-negative confidences reported by the
fallback message. -/
def toFixed2 (q : ℚ) : String :=
  let n := (⌊q * 100 + 1 / 2⌋).toNat
  toString (n / 100) ++ "." ++ (if n % 100 < 10 then "0" else "") ++ toString (n % 100)

/-- `_snapshot()`: the metrics plus two derived percentage strings. -/
structure Snapshot where
  totalTasks : Nat
  deterministicTasks : Nat
  modelFallbacks : Nat
  modelCallsForPlanning : Nat
  modelCallsForResponse : Nat
  errors : Nat
  byIntent : List (String × Nat)
  deterministicRate : String
  modelFallbackRate : String
deriving DecidableEq, Repr

def snapshot (m : Metrics) : Snapshot :=
  -- const total = this.metrics.totalTasks || 1
  let total : ℚ := if m.totalTasks = 0 then 1 else m.totalTasks
  { totalTasks := m.totalTasks, deterministicTasks := m.deterministicTasks,
    modelFallbacks := m.modelFallbacks, modelCallsForPlanning := m.modelCallsForPlanning,
    modelCallsForResponse := m.modelCallsForResponse, errors := m.errors,
    byIntent := m.byIntent,
    deterministicRate := toFixed1 ((m.deterministicTasks / total) * 100) ++ "%",
    modelFallbackRate := toFixed1 ((m.modelFallbacks / total) * 100) ++ "%" }

/-- One entry of the `results` list built by the execution loops:
`{tool, args, result, success: true}` or `{tool, args, error, success: false}`. -/
structure StepResult where
  tool : String
  args : JsVal
  result : Option JsVal
  error : Option String
  success : Bool
deriving Repr

def optJs : Option JsVal → JsVal
  | none => .undef
  | some v => v

def StepResult.toJs (sr : StepResult) : JsVal :=
  match sr.result, sr.error with
  | some r, _ =>
    .obj [("tool", .str sr.tool), ("args", sr.args), ("result", r), ("success", .bool sr.success)]
  | none, some e =>
    .obj [("tool", .str sr.tool), ("args", sr.args), ("error", .str e), ("success", .bool sr.success)]
  | none, none =>
    .obj [("tool", .str sr.tool), ("args", sr.args), ("success", .bool sr.success)]

/-- Body of the execution loops (orchestrator.js:188-194 and 303-308):
one executor call, exceptions converted to a failed step result. -/
def runStep (cfg : OrchCfg) (step : Step) : StepResult :=
  match cfg.executeTool step.tool step.args with
  | .ok v => { tool := step.tool, args := step.args, result := some v, error := none, success := true }
  | .error e => { tool := step.tool, args := step.args, result := none, error := some e, success := false }

/-! Validators (`VALIDATORS`).  Each returns the JS object
`{valid, reason?, ...}` as a `JsVal`. -/

/-- Shared shape of the `file_read`/`file_write`/`file_edit`/`default`
validators, which differ only in the fallback reason string. -/
def validatorErrOrFallback (fallback : String) (result : JsVal) : JsVal :=
  if !jsTruthy result || jsTruthy (result.get "error") then
    .obj [("valid", .bool false), ("reason", jsOr (result.get "error") (.str fallback))]
  else .obj [("valid", .bool true)]

def validatorShell (result : JsVal) : JsVal :=
  if !jsTruthy result then .obj [("valid", .bool false), ("reason", .str "no_result")]
  else
    let ec := result.get "exitCode"
    -- result.exitCode !== 0 && result.exitCode !== undefined
    let notZero := match ec with
      | .num q => decide (q ≠ 0)
      | _ => true
    let notUndef := match ec with
      | .undef => false
      | _ => true
    if notZero && notUndef then
      .obj [("valid", .bool false), ("reason", .str ("exit_code_" ++ jsToString ec)),
        ("stderr", result.get "stderr")]
    else .obj [("valid", .bool true)]

def validatorHttp (result : JsVal) : JsVal :=
  if !jsTruthy result then .obj [("valid", .bool false), ("reason", .str "no_result")]
  else
    -- result.status >= 400 (numeric comparison; non-numbers compare false here)
    let ge400 := match result.get "status" with
      | .num q => decide (400 ≤ q)
      | _ => false
    if ge400 then
      .obj [("valid", .bool false),
        ("reason", .str ("http_" ++ jsToString (result.get "status")))]
    else .obj [("valid", .bool true)]

def validatorSearch (result : JsVal) : JsVal :=
  if !jsTruthy result then .obj [("valid", .bool false), ("reason", .str "no_result")]
  else .obj [("valid", .bool true)]

/-- `VALIDATORS[classification.intent] || VALIDATORS.default`. -/
def validatorFor (intent : String) : JsVal → JsVal :=
  if intent = "file_read" then validatorErrOrFallback "no_result"
  else if intent = "file_write" then validatorErrOrFallback "write_failed"
  else if intent = "file_edit" then validatorErrOrFallback "edit_failed"
  else if intent = "shell_command" then validatorShell
  else if intent = "http_request" then validatorHttp
  else if intent = "search" then validatorSearch
  else validatorErrOrFallback "unknown_error"

/-! Response templates (`RESPONSE_TEMPLATES`).  A template returns
`Except String String`: reading `plan.steps[0]` throws a `TypeError` when
`plan.steps` is `null`/`undefined` (possible for a model-produced plan
object), which the caller's outer `catch` must observe. -/

/-- `v[0]` with the JS `TypeError` on `null`/`undefined` base. -/
def jsIdx0 : JsVal → Except String JsVal
  | .undef => .error "Cannot read properties of undefined (reading '0')"
  | .null => .error "Cannot read properties of null (reading '0')"
  | .arr xs => .ok ((xs.get? 0).getD .undef)
  | .obj fs => .ok (match fs.find? fun f => f.1 = "0" with
      | some f => f.2
      | none => .undef)
  | .str s => .ok (match s.toList.head? with
      | some c => .str (String.singleton c)
      | none => .undef)
  | _ => .ok (.undef : JsVal)

/-- `plan.steps[0]?.args?.path || 'file'` rendered to text. -/
def planPath0 (plan : JsVal) : Except String String :=
  match jsIdx0 (plan.get "steps") with
  | .error e => .error e
  | .ok step0 => .ok (jsToString (jsOr ((step0.get "args").get "path") (.str "file")))

/-- `plan.steps[0]?.args?.command || 'command'` rendered to text. -/
def planCmd0 (plan : JsVal) : Except String String :=
  match jsIdx0 (plan.get "steps") with
  | .error e => .error e
  | .ok step0 => .ok (jsToString (jsOr ((step0.get "args").get "command") (.str "command")))

def tmplFileReadSuccess (result plan : JsVal) : Except String String :=
  match planPath0 plan with
  | .error e => .error e
  | .ok p => .ok ("Contents of `" ++ p ++ "`:\n\n" ++ jsToString (jsOr (result.get "content") result))

def tmplFileReadError (result plan : JsVal) : Except String String :=
  match planPath0 plan with
  | .error e => .error e
  | .ok p =>
    .ok ("Failed to read `" ++ p ++ "`: " ++
      jsToString (jsOr (result.get "error") (jsOr (result.get "reason") (.str "unknown error"))))

def tmplFileWriteSuccess (_result plan : JsVal) : Except String String :=
  match planPath0 plan with
  | .error e => .error e
  | .ok p => .ok ("✓ File written: `" ++ p ++ "`")

def tmplFileWriteError (result plan : JsVal) : Except String String :=
  match planPath0 plan with
  | .error e => .error e
  | .ok p =>
    .ok ("✗ Failed to write `" ++ p ++ "`: " ++
      jsToString (jsOr (result.get "error") (.str "unknown error")))

def tmplShellSuccess (result plan : JsVal) : Except String String :=
  match planCmd0 plan with
  | .error e => .error e
  | .ok cmd =>
    let output := jsOr (result.get "stdout") (jsOr (result.get "output") (.str ""))
    .ok ("`" ++ cmd ++ "` completed successfully" ++
      (if jsTruthy output then ":\n\n" ++ jsToString output else "."))

def tmplShellError (result plan : JsVal) : Except String String :=
  match planCmd0 plan with
  | .error e => .error e
  | .ok cmd =>
    .ok ("`" ++ cmd ++ "` failed (exit " ++ jsToString (result.get "exitCode") ++ "):\n" ++
      jsToString (jsOr (result.get "stderr") (jsOr (result.get "error") (.str "unknown error"))))

def tmplHttpSuccess (result _plan : JsVal) : Except String String :=
  .ok ("HTTP " ++ jsToString (jsOr (result.get "status") (.num 200)) ++ " OK:\n\n" ++
    (match result.get "data" with
     | .str s => s
     | d => (jsonStringifyInd 0 d).getD "undefined"))

def tmplHttpError (result _plan : JsVal) : Except String String :=
  .ok ("HTTP request failed: " ++ jsToString (jsOr (result.get "status") (.str "error")) ++
    " — " ++
    jsToString (jsOr (result.get "error") (jsOr (result.get "statusText") (.str "unknown"))))

def tmplSearchSuccess (result _plan : JsVal) : Except String String :=
  match result.get "matches" with
  | .arr (x :: xs) =>
    .ok ("Found " ++ toString (x :: xs).length ++ " match(es):\n\n" ++
      String.intercalate "\n" ((x :: xs).map fun mv =>
        "  " ++ jsToString (mv.get "file") ++ ":" ++ jsToString (mv.get "line") ++ ": " ++
          jsToString (mv.get "text")))
  | _ =>
    .ok ("Search complete: " ++ jsToString (jsOr (result.get "count") (.num 0)) ++
      " results found.")

def tmplSearchError (result _plan : JsVal) : Except String String :=
  .ok ("Search failed: " ++ jsToString (jsOr (result.get "error") (.str "unknown error")))

def tmplDefaultSuccess (result _plan : JsVal) : Except String String :=
  .ok ("Task completed successfully." ++
    (if jsTruthy result then "\n\n" ++ ((jsonStringifyInd 0 result).getD "undefined") else ""))

def tmplDefaultError (result _plan : JsVal) : Except String String :=
  .ok ("Task failed: " ++
    jsToString (jsOr (result.get "error") (jsOr (result.get "reason") (.str "unknown error"))))

/-- `RESPONSE_TEMPLATES[intent] || RESPONSE_TEMPLATES.default`, success arm. -/
def tmplSuccess (intent : String) : JsVal → JsVal → Except String String :=
  if intent = "file_read" then tmplFileReadSuccess
  else if intent = "file_write" then tmplFileWriteSuccess
  else if intent = "shell_command" then tmplShellSuccess
  else if intent = "http_request" then tmplHttpSuccess
  else if intent = "search" then tmplSearchSuccess
  else tmplDefaultSuccess

/-- `RESPONSE_TEMPLATES[intent] || RESPONSE_TEMPLATES.default`, error arm. -/
def tmplError (intent : String) : JsVal → JsVal → Except String String :=
  if intent = "file_read" then tmplFileReadError
  else if intent = "file_write" then tmplFileWriteError
  else if intent = "shell_command" then tmplShellError
  else if intent = "http_request" then tmplHttpError
  else if intent = "search" then tmplSearchError
  else tmplDefaultError

/-- `{ ...a, ...b }` for objects (or `undefined`, which spreads to
nothing); keys of `b` override keys of `a`. -/
def jsFieldsOf : JsVal → List (String × JsVal)
  | .obj fs => fs
  | _ => []

def jsSpread2 (a b : JsVal) : JsVal :=
  .obj ((jsFieldsOf a).filter (fun f => !(jsFieldsOf b).any fun g => g.1 = f.1) ++ jsFieldsOf b)

def Step.toJs (s : Step) : JsVal :=
  .obj [("tool", .str s.tool), ("args", s.args)]

def Plan.toJs (p : Plan) : JsVal :=
  .obj [("intent", .str p.intent), ("steps", .arr (p.steps.map Step.toJs)),
    ("requiresModelForPlanning", .bool p.requiresModelForPlanning)]

/-! Model-assisted planning (`_modelAssistPlan`). -/

/-- The system prompt template literal of `_modelAssistPlan`. -/
def mkPlanPrompt (classification : Classification) (partialPlan : Plan) : String :=
  "You are a task planner. Given the user's request and a partial plan, fill in the missing details.\n" ++
  "The task type is: " ++ classification.intent ++ "\n" ++
  "Available tools: " ++ String.intercalate ", " classification.tools ++ "\n" ++
  "Partial plan steps: " ++
    ((jsonStringify (.arr (partialPlan.steps.map Step.toJs))).getD "undefined") ++ "\n\n" ++
  "Respond with ONLY a JSON object containing the complete plan:\n" ++
  "\x7b\n  \"steps\": [\n    \x7b \"tool\": \"tool_name\", \"args\": \x7b ... \x7d \x7d\n  ]\n\x7d"

/-- `response.match(/\{[\s\S]*\})?.[0]`: from the first `{` greedily to the
last `}`. -/
def firstJsonBlock (s : String) : Option String :=
  let cs := s.toList
  match cs.findIdx? (· = Char.ofNat 123) with
  | none => none
  | some i =>
    match cs.reverse.findIdx? (· = Char.ofNat 125) with
    | none => none
    | some revJ =>
      let j := cs.length - 1 - revJ
      if i ≤ j then some (String.mk ((cs.drop i).take (j - i + 1))) else none

/-- `_modelAssistPlan`: ask the model once; on any failure (rejection, no
JSON block, parse error) log a warning and keep the partial plan.  The
result is the raw plan object consumed duck-typed downstream. -/
def modelAssistPlan (adapter : ModelAdapter) (input : String) (classification : Classification)
    (partialPlan : Plan) : JsVal :=
  match adapter.complete (mkPlanPrompt classification partialPlan) input with
  | .error _ => partialPlan.toJs
  | .ok response =>
    match firstJsonBlock response with
    | none => partialPlan.toJs
    | some json =>
      match jsonParse json with
      | some v => v
      | none => partialPlan.toJs

/-- `for (const step of (plan.steps || []))` on a duck-typed plan object:
falsy `steps` iterates nothing, an array iterates its elements, a string
iterates its characters (whose `tool`/`args` properties are `undefined`,
coarsely rendered below), and any other truthy value throws `TypeError`. -/
def iterSteps (planJs : JsVal) : Except String (List Step) :=
  match jsOr (planJs.get "steps") (.arr []) with
  | .arr xs =>
    .ok (xs.map fun e =>
      { tool := match e.get "tool" with
          | .str t => t
          | other => jsToString other
        args := e.get "args" })
  | .str s => .ok (s.toList.map fun _ => { tool := jsToString JsVal.undef, args := JsVal.undef })
  | _ => .error "plan.steps is not iterable"

/-- The object returned by `process` (fields that only some paths set are
`Option`s defaulting to absent). -/
structure ProcResult where
  response : String
  metrics : Snapshot
  trace : List JsVal
  deterministic : Bool
  classification : Option Classification := none
  results : Option (List StepResult) := none
  error : Option String := none
  modelUsed : Option Bool := none
  modelUsedForPlanning : Option Bool := none
deriving Repr

/-- A JS exception escaping to the top-level `catch` of `process`:
the `state` local, `err.message`, and the `trace` array and metrics as
already mutated. -/
structure Thrown where
  state : String
  msg : String
  trace : List JsVal
  metrics : Metrics

/-- `modelPlan.steps?.length || 0` for the trace entry. -/
def jsStepsLen (v : JsVal) : JsVal :=
  match v with
  | .undef => .undef
  | .null => .undef
  | .arr xs => .num xs.length
  | .str s => .num s.length
  | .obj fs => JsVal.get (.obj fs) "length"
  | _ => (.undef : JsVal)

/-- `_modelFallback`: full delegation used on `no_pattern_match`. -/
def modelFallback (cfg : OrchCfg) (input : String) (classification : Classification)
    (trace : List JsVal) (m : Metrics) : Except Thrown (ProcResult × Metrics) :=
  let m1 := { m with modelFallbacks := m.modelFallbacks + 1 }
  match cfg.model with
  | none =>
    .ok ({ response := "I couldn't classify this task deterministically (confidence: " ++
             toFixed2 classification.confidence ++
             "). Enable a model provider (--provider ollama or --provider claude) for general-purpose tasks.",
           metrics := snapshot m1, trace := trace, deterministic := false }, m1)
  | some adapter =>
    let trace2 := trace ++ [.obj [("state", .str "model_fallback"),
      ("reason", .str "classifier_no_match")]]
    match adapter.processAgentLoop input with
    | .error e => .error { state := "classifying", msg := e, trace := trace2, metrics := m1 }
    | .ok result =>
      let m2 := { m1 with modelCallsForResponse := m1.modelCallsForResponse + 1 }
      -- response: result.response || result (rendered to text for the caller)
      .ok ({ response := jsToString (jsOr (result.get "response") result),
             metrics := snapshot m2, trace := trace2, deterministic := false,
             modelUsed := some true }, m2)

/-- `_executeModelPlan`: run a (possibly model-revised) plan object.
Errors carry the trace as accumulated at the throw point. -/
def executeModelPlan (cfg : OrchCfg) (planJs : JsVal) (classification : Classification)
    (trace : List JsVal) (m : Metrics) : Except (String × List JsVal) (ProcResult × Metrics) :=
  match iterSteps planJs with
  | .error e => .error (e, trace)
  | .ok steps =>
    let results := steps.map (runStep cfg)
    let trace2 := trace ++ [.obj [("state", .str "executing"), ("modelAssisted", .bool true),
      ("steps", .num results.length)]]
    let lastResult := results.getLast?
    let respE :=
      match lastResult with
      | some sr =>
        if sr.success then
          tmplSuccess classification.intent (jsOr (optJs sr.result) sr.toJs) planJs
        else tmplError classification.intent sr.toJs planJs
      | none => tmplError classification.intent (.obj [("error", .str "no results")]) planJs
    match respE with
    | .error e => .error (e, trace2)
    | .ok response =>
      .ok ({ response := response, metrics := snapshot m, trace := trace2,
             deterministic := false, modelUsedForPlanning := some true,
             results := some results }, m)

/-- The EXECUTING / VALIDATING / RESPONDING stages of the deterministic
path of `process` (orchestrator.js:183-221). -/
def detPath (cfg : OrchCfg) (classification : Classification) (plan : Plan)
    (trace : List JsVal) (m : Metrics) : Except Thrown (ProcResult × Metrics) :=
  -- EXECUTING (deterministic)
  let results := plan.steps.map (runStep cfg)
  let trace3 := trace ++ [.obj [("state", .str "executing"),
    ("stepsExecuted", .num results.length),
    ("successes", .num (results.filter (·.success)).length)]]
  -- VALIDATING (deterministic)
  let lastResult := results.getLast?
  let vInput := match lastResult with
    | none => JsVal.undef
    | some sr => jsOr (optJs sr.result) sr.toJs
  let validation := validatorFor classification.intent vInput
  let trace4 := trace3 ++ [.obj [("state", .str "validating"),
    ("valid", validation.get "valid"), ("reason", validation.get "reason")]]
  -- RESPONDING (template-based, no model)
  let respE :=
    if jsTruthy (validation.get "valid") then
      tmplSuccess classification.intent vInput plan.toJs
    else
      tmplError classification.intent
        (jsSpread2 (match lastResult with
          | none => JsVal.undef
          | some sr => sr.toJs) validation)
        plan.toJs
  match respE with
  | .error e => .error { state := "responding", msg := e, trace := trace4, metrics := m }
  | .ok response =>
    let m2 := { m with deterministicTasks := m.deterministicTasks + 1 }
    .ok ({ response := response, metrics := snapshot m2, trace := trace4,
           deterministic := true, classification := some classification,
           results := some results }, m2)

/-- The `try` block of `process` (orchestrator.js:134-222). -/
def processTry (cfg : OrchCfg) (input : String) (m0 : Metrics) :
    Except Thrown (ProcResult × Metrics) :=
  -- CLASSIFYING (deterministic)
  let classification := classify input cfg.confidenceThreshold
  let trace1 : List JsVal := [.obj [("state", .str "classifying"),
    ("intent", .str classification.intent), ("confidence", .num classification.confidence),
    ("needsModel", .bool classification.needsModel), ("reason", .str classification.reason)]]
  let m1 := trackIntent m0 classification.intent
  if classification.needsModel && classification.reason == "no_pattern_match" then
    modelFallback cfg input classification trace1 m1
  else
    -- PLANNING (deterministic where possible)
    let plan := planFromIntent classification input
    let trace2 := trace1 ++ [.obj [("state", .str "planning"),
      ("steps", .num plan.steps.length), ("requiresModel", .bool plan.requiresModelForPlanning)]]
    if plan.requiresModelForPlanning then
      match cfg.model with
      | none =>
        -- no model available — return what we can
        .ok ({ response := "I identified this as a \"" ++ classification.intent ++
                 "\" task, but I need a model to complete the planning. " ++
                 "Run with --provider ollama or --provider claude to enable model-assisted planning.",
               metrics := snapshot m1, trace := trace2, deterministic := false }, m1)
      | some adapter =>
        let m2 := { m1 with modelCallsForPlanning := m1.modelCallsForPlanning + 1 }
        let modelPlan := modelAssistPlan adapter input classification plan
        let trace3 := trace2 ++ [.obj [("state", .str "model_plan_assist"),
          ("modelSteps", jsOr (jsStepsLen (modelPlan.get "steps")) (.num 0))]]
        match executeModelPlan cfg modelPlan classification trace3 m2 with
        | .ok r => .ok r
        | .error (msg, tr) => .error { state := "planning", msg := msg, trace := tr, metrics := m2 }
    else
      detPath cfg classification plan trace2 m1

/-- `WorkflowOrchestrator.process(input)`: the `try` body plus the
top-level `catch`, threading the metrics state explicitly. -/
def process (cfg : OrchCfg) (input : String) (m : Metrics) : ProcResult × Metrics :=
  let m0 := { m with totalTasks := m.totalTasks + 1 }
  match processTry cfg input m0 with
  | .ok r => r
  | .error t =>
    let m2 := { t.metrics with errors := t.metrics.errors + 1 }
    ({ response := "Error in " ++ t.state ++ ": " ++ t.msg, metrics := snapshot m2,
       trace := t.trace, deterministic := false, error := some t.msg }, m2)

/-! ## Scoring lemmas -/

/-- The accumulating fold of the scoring loops equals weight times the
match count. -/
theorem foldl_score_step {α : Type} (step : α → Bool) (w : ℚ) (ls : List α) :
    ∀ (a : ℚ) (n : Nat),
      ls.foldl (fun (acc : ℚ × Nat) x => if step x then (acc.1 + w, acc.2 + 1) else acc) (a, n) =
        (a + w * ls.countP step, n + ls.countP step) := by
  induction ls with
  | nil => intro a n; simp
  | cons x t ih =>
    intro a n
    simp only [List.foldl_cons, List.countP_cons]
    by_cases h : step x
    · simp only [h, if_true, ih, Prod.mk.injEq]
      refine ⟨by push_cast; ring, by omega⟩
    · simp only [h, Bool.false_eq_true, if_false, ih, Prod.mk.injEq]
      refine ⟨by push_cast; ring, by omega⟩

/-- The total entity boost actually applied by the four boost `if`s of the
scoring loop: one boost per populated relevant entity category (so
`shell_command` can receive it twice). -/
def perCategoryBoost (entities : Entities) (t : TaskType) : ℚ :=
  (if 0 < entities.filePaths.length ∧
      t.id ∈ ["file_read", "file_write", "file_edit", "code_analysis"] then
    t.confidence_boost else 0) +
  (if 0 < entities.urls.length ∧ t.id = "http_request" then t.confidence_boost else 0) +
  (if 0 < entities.gitOps.length ∧ t.id = "shell_command" then t.confidence_boost else 0) +
  (if 0 < entities.packages.length ∧ t.id = "shell_command" then t.confidence_boost else 0)

/-- Closed form of the per-type scoring loop. -/
theorem scoreOne_spec (input inputLower : String) (ents : Entities) (t : TaskType) :
    scoreOne input inputLower ents t =
      { taskType := t.id,
        confidence := min (0.3 * (t.patterns.countP fun p => rtest p input) +
          0.1 * (t.keywords.countP fun kw => strIncludes inputLower kw.toLower) +
          perCategoryBoost ents t) 1,
        matchedPatterns := t.patterns.countP fun p => rtest p input,
        matchedKeywords := t.keywords.countP fun kw => strIncludes inputLower kw.toLower,
        tools := t.tools, entities := ents } := by
  simp only [scoreOne, foldl_score_step]
  unfold perCategoryBoost
  split_ifs <;>
    simp only [Scored.mk.injEq, true_and, and_true, zero_add, add_zero,
      eq_self_iff_true] <;>
    first
      | rfl
      | exact congrArg (fun z : ℚ => min z 1) (by ring)

/-- Membership is unchanged by the final sort. -/
theorem mem_scoreTaskTypes {input : String} {s : Scored} :
    s ∈ scoreTaskTypes input ↔ s ∈ preScores input :=
  (List.perm_insertionSort confGe (preScores input)).mem_iff

/-! ## Sorting lemmas (stability of the candidate order) -/

theorem filter_orderedInsert (c : ℚ) (a : Scored) (l : List Scored) :
    (List.orderedInsert confGe a l).filter (fun s => decide (s.confidence = c)) =
      if a.confidence = c
      then a :: l.filter (fun s => decide (s.confidence = c))
      else l.filter (fun s => decide (s.confidence = c)) := by
  induction l with
  | nil =>
    simp only [List.orderedInsert, List.filter]
    split_ifs with h <;> simp [h]
  | cons b tl ih =>
    by_cases hab : confGe a b
    · rw [List.orderedInsert_of_le confGe tl hab]
      simp only [List.filter_cons]
      split_ifs <;> simp_all
    · have hrw : List.orderedInsert confGe a (b :: tl) = b :: List.orderedInsert confGe a tl := by
        simp [List.orderedInsert, hab]
      rw [hrw]
      by_cases hac : a.confidence = c
      · have hbc : ¬(b.confidence = c) := by
          intro hb
          exact hab (le_of_eq (hb.trans hac.symm))
        simp only [List.filter_cons]
        split_ifs <;> simp_all
      · simp only [List.filter_cons]
        split_ifs <;> simp_all

theorem filter_insertionSort (c : ℚ) (l : List Scored) :
    (List.insertionSort confGe l).filter (fun s => decide (s.confidence = c)) =
      l.filter (fun s => decide (s.confidence = c)) := by
  induction l with
  | nil => rfl
  | cons a tl ih =>
    simp only [List.insertionSort]
    rw [filter_orderedInsert]
    split_ifs with h <;> simp [List.filter_cons, h, ih]

/-- Membership characterisation of the scorer's output. -/
theorem mem_scoreTaskTypes_iff {input : String} {s : Scored} :
    s ∈ scoreTaskTypes input ↔
      ∃ t ∈ TASK_TYPES,
        s = scoreOne input input.toLower (extractEntities input) t ∧ 0 < s.confidence := by
  rw [mem_scoreTaskTypes]
  unfold preScores
  simp only [List.mem_filter, List.mem_map, decide_eq_true_eq]
  constructor
  · rintro ⟨⟨t, ht, rfl⟩, hpos⟩
    exact ⟨t, ht, rfl, hpos⟩
  · rintro ⟨t, ht, rfl, hpos⟩
    exact ⟨⟨t, ht, rfl⟩, hpos⟩

/-- C6: the candidate list returned by the scorer is sorted in descending
order of confidence, and candidates with exactly equal confidence appear in
the original order of the task-type definition table (`preScores` is built
in `TASK_TYPES` order): the sort is stable. -/
theorem scorer_sorted_and_stable (input : String) :
    List.Pairwise (fun a b : Scored => b.confidence ≤ a.confidence) (scoreTaskTypes input) ∧
    ∀ c : ℚ, (scoreTaskTypes input).filter (fun s => decide (s.confidence = c)) =
      (preScores input).filter (fun s => decide (s.confidence = c)) := by
  constructor
  · have h := List.sorted_insertionSort confGe (preScores input)
    simpa [List.Sorted, confGe] using h
  · intro c
    exact filter_insertionSort c _

/-- The confidence formula of the scoring loop, with the boost counted once
per populated relevant entity category, as the code applies it. -/
def confFormula (input : String) (t : TaskType) : ℚ :=
  min (0.3 * (t.patterns.countP fun p => rtest p input) +
    0.1 * (t.keywords.countP fun kw => strIncludes input.toLower kw.toLower) +
    perCategoryBoost (extractEntities input) t) 1

/-- The confidence formula as claim C5 words it: a one-time `entityBoost`,
added once when the task type is in the fixed relevance set of some
populated extracted-entity category.  Modelled from the spec, for
comparison with the code's `confFormula`. -/
def specOneTimeBoostConf (input : String) (t : TaskType) : ℚ :=
  let entities := extractEntities input
  min (0.3 * (t.patterns.countP fun p => rtest p input) +
    0.1 * (t.keywords.countP fun kw => strIncludes input.toLower kw.toLower) +
    (if (0 < entities.filePaths.length ∧
          t.id ∈ ["file_read", "file_write", "file_edit", "code_analysis"]) ∨
        (0 < entities.urls.length ∧ t.id = "http_request") ∨
        (0 < entities.gitOps.length ∧ t.id = "shell_command") ∨
        (0 < entities.packages.length ∧ t.id = "shell_command") then
      t.confidence_boost else 0)) 1

/-- C5 (counterexample): on `"npm install a git merge"` both the git-op and
the package entity categories are populated, so the code adds the
`shell_command` boost twice: the reported confidence is `1`, while the
claim's one-time-boost formula yields `0.8`.  The claim as stated is false
at this input. -/
theorem score_one_time_boost_counterexample :
    ((scoreTaskTypes "npm install a git merge").find?
        fun s => s.taskType == "shell_command").map Scored.confidence = some 1 ∧
    specOneTimeBoostConf "npm install a git merge" SHELL_COMMAND = 0.8 ∧
    ¬(((scoreTaskTypes "npm install a git merge").find?
        fun s => s.taskType == "shell_command").map Scored.confidence =
      some (specOneTimeBoostConf "npm install a git merge" SHELL_COMMAND)) := by
  refine ⟨?_, ?_, ?_⟩
  · with_unfolding_all rfl
  · with_unfolding_all rfl
  · with_unfolding_all exact of_decide_eq_true rfl

/-- C5 (amended): for every input and every task type of the definition
table, a candidate for that type is emitted iff the per-category-boost
formula is strictly positive, and every emitted candidate for the type
carries exactly `min(0.3·patternMatches + 0.1·keywordMatches + boosts, 1)`
as its confidence together with the raw match counts;  the boost term is
`entityBoost` once per populated relevant entity category (twice for
`shell_command` when both git operations and packages are extracted). -/
theorem score_formula_per_category (input : String) (t : TaskType) (ht : t ∈ TASK_TYPES) :
    ((∃ s ∈ scoreTaskTypes input, s.taskType = t.id) ↔ 0 < confFormula input t) ∧
    ∀ s ∈ scoreTaskTypes input, s.taskType = t.id →
      s.confidence = confFormula input t ∧
      s.matchedPatterns = (t.patterns.countP fun p => rtest p input) ∧
      s.matchedKeywords = (t.keywords.countP fun kw => strIncludes input.toLower kw.toLower) := by
  have hspec := scoreOne_spec input input.toLower (extractEntities input)
  have hinj := List.inj_on_of_nodup_map (f := TaskType.id)
    (by decide : (TASK_TYPES.map TaskType.id).Nodup)
  have heq : ∀ t' : TaskType, t' ∈ TASK_TYPES →
      (scoreOne input input.toLower (extractEntities input) t').taskType = t.id → t' = t := by
    intro t' ht' hid
    rw [hspec t'] at hid
    exact hinj ht' ht hid
  constructor
  · constructor
    · rintro ⟨s, hs, hid⟩
      rcases mem_scoreTaskTypes_iff.mp hs with ⟨t', ht', rfl, hpos⟩
      have ht'' := heq t' ht' hid
      rw [← ht'']
      have hc : (scoreOne input input.toLower (extractEntities input) t').confidence =
          confFormula input t' := by
        rw [hspec t']
        rfl
      rw [← hc]
      exact hpos
    · intro hpos
      refine ⟨scoreOne input input.toLower (extractEntities input) t,
        mem_scoreTaskTypes_iff.mpr ⟨t, ht, rfl, ?_⟩, by rw [hspec t]⟩
      rw [hspec t]
      exact hpos
  · rintro s hs hid
    rcases mem_scoreTaskTypes_iff.mp hs with ⟨t', ht', rfl, hpos⟩
    have ht'' := heq t' ht' hid
    rw [← ht'']
    rw [hspec t']
    exact ⟨rfl, rfl, rfl⟩

/-- C5 (witness): the amended formula instantiated at the counterexample
input for `SHELL_COMMAND`. -/
theorem score_formula_per_category_witness :
    SHELL_COMMAND ∈ TASK_TYPES ∧
    (((∃ s ∈ scoreTaskTypes "npm install a git merge", s.taskType = SHELL_COMMAND.id) ↔
        0 < confFormula "npm install a git merge" SHELL_COMMAND) ∧
      ∀ s ∈ scoreTaskTypes "npm install a git merge", s.taskType = SHELL_COMMAND.id →
        s.confidence = confFormula "npm install a git merge" SHELL_COMMAND ∧
        s.matchedPatterns = (SHELL_COMMAND.patterns.countP
          fun p => rtest p "npm install a git merge") ∧
        s.matchedKeywords = (SHELL_COMMAND.keywords.countP
          fun kw => strIncludes "npm install a git merge".toLower kw.toLower)) :=
  ⟨List.mem_cons_of_mem FILE_READ (List.mem_cons_of_mem FILE_WRITE
      (List.mem_cons_of_mem FILE_EDIT (List.mem_cons_self SHELL_COMMAND _))),
    score_formula_per_category "npm install a git merge" SHELL_COMMAND
      (List.mem_cons_of_mem FILE_READ (List.mem_cons_of_mem FILE_WRITE
        (List.mem_cons_of_mem FILE_EDIT (List.mem_cons_self SHELL_COMMAND _))))⟩

/-- C10: whenever the entity extractor finds at least one file path, the
scorer's candidate list contains a `file_write` candidate of confidence at
least `0.1` and a `file_edit` candidate of confidence at least `0.2`; if
additionally no pattern and no keyword of the type matched, the candidate's
confidence is exactly the boost, so the entity boost alone creates the
candidate. -/
theorem file_path_boost_creates_candidates (input : String)
    (h : (extractEntities input).filePaths ≠ []) :
    (∃ s ∈ scoreTaskTypes input, s.taskType = "file_write" ∧ (0.1 : ℚ) ≤ s.confidence ∧
      (s.matchedPatterns = 0 → s.matchedKeywords = 0 → s.confidence = 0.1)) ∧
    (∃ s ∈ scoreTaskTypes input, s.taskType = "file_edit" ∧ (0.2 : ℚ) ≤ s.confidence ∧
      (s.matchedPatterns = 0 → s.matchedKeywords = 0 → s.confidence = 0.2)) := by
  have hlen : 0 < (extractEntities input).filePaths.length := List.length_pos.mpr h
  have hspec := scoreOne_spec input input.toLower (extractEntities input)
  have build : ∀ t : TaskType, t ∈ TASK_TYPES →
      t.id ∈ ["file_read", "file_write", "file_edit", "code_analysis"] →
      ¬(t.id = "http_request") → ¬(t.id = "shell_command") →
      0 < t.confidence_boost → t.confidence_boost ≤ 1 →
      ∃ s ∈ scoreTaskTypes input, s.taskType = t.id ∧ t.confidence_boost ≤ s.confidence ∧
        (s.matchedPatterns = 0 → s.matchedKeywords = 0 →
          s.confidence = t.confidence_boost) := by
    intro t ht hmem hne1 hne2 hbpos hble
    have hboost : perCategoryBoost (extractEntities input) t = t.confidence_boost := by
      unfold perCategoryBoost
      rw [if_pos ⟨hlen, hmem⟩, if_neg (fun hc => hne1 hc.2), if_neg (fun hc => hne2 hc.2),
        if_neg (fun hc => hne2 hc.2)]
      ring
    set P := (t.patterns.countP fun p => rtest p input) with hP
    set K := (t.keywords.countP fun kw => strIncludes input.toLower kw.toLower) with hK
    have hsum : t.confidence_boost ≤ 0.3 * (P : ℚ) + 0.1 * (K : ℚ) + t.confidence_boost := by
      have h1 : (0 : ℚ) ≤ 0.3 * (P : ℚ) + 0.1 * (K : ℚ) := by positivity
      linarith
    have hconf : (scoreOne input input.toLower (extractEntities input) t).confidence =
        min (0.3 * (P : ℚ) + 0.1 * (K : ℚ) + t.confidence_boost) 1 := by
      rw [hspec t, hboost]
    have hge : t.confidence_boost ≤
        (scoreOne input input.toLower (extractEntities input) t).confidence := by
      rw [hconf]
      exact le_min hsum hble
    refine ⟨scoreOne input input.toLower (extractEntities input) t,
      mem_scoreTaskTypes_iff.mpr ⟨t, ht, rfl, lt_of_lt_of_le hbpos hge⟩,
      by rw [hspec t], hge, ?_⟩
    intro hp0 hk0
    rw [hspec t] at hp0 hk0
    simp only at hp0 hk0
    rw [hconf, hP, hK, hp0, hk0]
    have hside : (0.3 : ℚ) * ((0 : ℕ) : ℚ) + 0.1 * ((0 : ℕ) : ℚ) + t.confidence_boost ≤ 1 := by
      push_cast
      linarith
    rw [min_eq_left hside]
    push_cast
    ring
  constructor
  · have h1 := build FILE_WRITE
      (List.mem_cons_of_mem FILE_READ (List.mem_cons_self FILE_WRITE _))
      (by decide) (by decide) (by decide) (by norm_num [FILE_WRITE]) (by norm_num [FILE_WRITE])
    simpa [show FILE_WRITE.id = "file_write" from rfl,
      show FILE_WRITE.confidence_boost = (0.1 : ℚ) from rfl] using h1
  · have h1 := build FILE_EDIT
      (List.mem_cons_of_mem FILE_READ (List.mem_cons_of_mem FILE_WRITE
        (List.mem_cons_self FILE_EDIT _)))
      (by decide) (by decide) (by decide) (by norm_num [FILE_EDIT]) (by norm_num [FILE_EDIT])
    simpa [show FILE_EDIT.id = "file_edit" from rfl,
      show FILE_EDIT.confidence_boost = (0.2 : ℚ) from rfl] using h1

/-- C10 (witness): `"read foo.txt"` has an extracted file path and matches
no `file_write`/`file_edit` pattern or keyword. -/
theorem file_path_boost_creates_candidates_witness :
    (extractEntities "read foo.txt").filePaths ≠ [] ∧
    ((∃ s ∈ scoreTaskTypes "read foo.txt", s.taskType = "file_write" ∧
        (0.1 : ℚ) ≤ s.confidence ∧
        (s.matchedPatterns = 0 → s.matchedKeywords = 0 → s.confidence = 0.1)) ∧
      (∃ s ∈ scoreTaskTypes "read foo.txt", s.taskType = "file_edit" ∧
        (0.2 : ℚ) ≤ s.confidence ∧
        (s.matchedPatterns = 0 → s.matchedKeywords = 0 → s.confidence = 0.2))) :=
  ⟨by with_unfolding_all exact of_decide_eq_true rfl,
    file_path_boost_creates_candidates "read foo.txt"
      (by with_unfolding_all exact of_decide_eq_true rfl)⟩

/-- C2: for every input string and every threshold, if
`classify(input, threshold)` returns `needsModel = false` then its reason
is `"deterministic_match"` and its confidence is at least the threshold. -/
theorem classify_needsModel_false_inv (input : String) (threshold : ℚ)
    (h : (classify input threshold).needsModel = false) :
    (classify input threshold).reason = "deterministic_match" ∧
    threshold ≤ (classify input threshold).confidence := by
  rcases hs : scoreTaskTypes input with _ | ⟨top, rest⟩ <;>
    simp only [classify, hs] at h ⊢
  · exact absurd h (by simp)
  · by_cases hth : threshold ≤ top.confidence
    · rw [if_pos hth] at h ⊢
      rcases rest with _ | ⟨second, rest'⟩
      · simpa using hth
      · simp only at h ⊢
        simpa [h] using hth
    · rw [if_neg hth] at h
      exact absurd h (by simp)

/-- C2 (witness): the invariant at `"read file src/agent.js"` with the
default threshold. -/
theorem classify_needsModel_false_inv_witness :
    (classify "read file src/agent.js" 0.4).needsModel = false ∧
    ((classify "read file src/agent.js" 0.4).reason = "deterministic_match" ∧
      (0.4 : ℚ) ≤ (classify "read file src/agent.js" 0.4).confidence) :=
  ⟨by with_unfolding_all rfl,
    classify_needsModel_false_inv "read file src/agent.js" 0.4 (by with_unfolding_all rfl)⟩

/-- C7: for every input whose top candidate reaches the threshold, a second
candidate within `0.1` yields `needsModel = true` with reason
`"ambiguous_top_scores"`, and otherwise `needsModel = false` with reason
`"deterministic_match"`. -/
theorem classify_ambiguity_rule (input : String) (threshold : ℚ) (top : Scored)
    (rest : List Scored) (hs : scoreTaskTypes input = top :: rest)
    (hth : threshold ≤ top.confidence) :
    ((∃ second rest', rest = second :: rest' ∧
        top.confidence - second.confidence < 0.1) →
      (classify input threshold).needsModel = true ∧
      (classify input threshold).reason = "ambiguous_top_scores") ∧
    ((∀ second rest', rest = second :: rest' →
        ¬(top.confidence - second.confidence < 0.1)) →
      (classify input threshold).needsModel = false ∧
      (classify input threshold).reason = "deterministic_match") := by
  constructor
  · rintro ⟨second, rest', rfl, hlt⟩
    simp only [classify, hs]
    rw [if_pos hth]
    simp [hlt]
  · intro hno
    simp only [classify, hs]
    rw [if_pos hth]
    rcases rest with _ | ⟨second, rest'⟩
    · simp
    · have hg := hno second rest' rfl
      simp [hg]

/-- C7 (witness): `"npm test"` scores `shell_command` and `testing` both at
`0.4`, at the threshold with gap `0`: the ambiguous branch fires. -/
theorem classify_ambiguity_rule_witness :
    scoreTaskTypes "npm test" =
      [{ taskType := "shell_command", confidence := 0.4, matchedPatterns := 1,
         matchedKeywords := 1, tools := ["run_command"],
         entities := ⟨[], [], [], [], []⟩ },
       { taskType := "testing", confidence := 0.4, matchedPatterns := 1,
         matchedKeywords := 1, tools := ["run_command", "create_file", "read_file"],
         entities := ⟨[], [], [], [], []⟩ }] ∧
    ((classify "npm test" 0.4).needsModel = true ∧
      (classify "npm test" 0.4).reason = "ambiguous_top_scores") :=
  have hs : scoreTaskTypes "npm test" =
      [{ taskType := "shell_command", confidence := 0.4, matchedPatterns := 1,
         matchedKeywords := 1, tools := ["run_command"],
         entities := ⟨[], [], [], [], []⟩ },
       { taskType := "testing", confidence := 0.4, matchedPatterns := 1,
         matchedKeywords := 1, tools := ["run_command", "create_file", "read_file"],
         entities := ⟨[], [], [], [], []⟩ }] := by with_unfolding_all rfl
  ⟨hs, (classify_ambiguity_rule "npm test" 0.4 _ _ hs (by norm_num)).1
    ⟨_, [], rfl, by norm_num⟩⟩

/-- C8: `"read file src/agent.js"` with the default threshold `0.4`
classifies deterministically as `file_read` and plans exactly
`[read_file {path: "src/agent.js"}]` without requiring a model. -/
theorem read_file_end_to_end :
    (classify "read file src/agent.js" 0.4).intent = "file_read" ∧
    (classify "read file src/agent.js" 0.4).needsModel = false ∧
    planFromIntent (classify "read file src/agent.js" 0.4) "read file src/agent.js" =
      { intent := "file_read",
        steps := [{ tool := "read_file", args := .obj [("path", .str "src/agent.js")] }],
        requiresModelForPlanning := false } := by
  refine ⟨?_, ?_, ?_⟩ <;> with_unfolding_all rfl

/-! ## Orchestrator lemmas -/

theorem Plan.toJs_get_steps (p : Plan) :
    (Plan.toJs p).get "steps" = .arr (p.steps.map Step.toJs) := rfl

theorem planPath0_toJs_ok (p : Plan) : ∃ s, planPath0 p.toJs = .ok s := by
  unfold planPath0
  rw [Plan.toJs_get_steps]
  exact ⟨_, rfl⟩

theorem planCmd0_toJs_ok (p : Plan) : ∃ s, planCmd0 p.toJs = .ok s := by
  unfold planCmd0
  rw [Plan.toJs_get_steps]
  exact ⟨_, rfl⟩

/-- On a plan built by the deterministic planner (whose `steps` is a real
array), no success template can throw. -/
theorem tmplSuccess_toJs_ok (intent : String) (r : JsVal) (p : Plan) :
    ∃ s, tmplSuccess intent r p.toJs = .ok s := by
  unfold tmplSuccess
  split_ifs
  · unfold tmplFileReadSuccess
    obtain ⟨s, hs⟩ := planPath0_toJs_ok p
    rw [hs]
    exact ⟨_, rfl⟩
  · unfold tmplFileWriteSuccess
    obtain ⟨s, hs⟩ := planPath0_toJs_ok p
    rw [hs]
    exact ⟨_, rfl⟩
  · unfold tmplShellSuccess
    obtain ⟨s, hs⟩ := planCmd0_toJs_ok p
    rw [hs]
    exact ⟨_, rfl⟩
  · exact ⟨_, rfl⟩
  · unfold tmplSearchSuccess
    rcases hm : r.get "matches" with _ | _ | b | q | s | es | fs
    · exact ⟨_, rfl⟩
    · exact ⟨_, rfl⟩
    · exact ⟨_, rfl⟩
    · exact ⟨_, rfl⟩
    · exact ⟨_, rfl⟩
    · rcases es with _ | ⟨x, xs⟩
      · exact ⟨_, rfl⟩
      · exact ⟨_, rfl⟩
    · exact ⟨_, rfl⟩
  · exact ⟨_, rfl⟩

/-- Likewise for the error templates. -/
theorem tmplError_toJs_ok (intent : String) (r : JsVal) (p : Plan) :
    ∃ s, tmplError intent r p.toJs = .ok s := by
  unfold tmplError
  split_ifs
  · unfold tmplFileReadError
    obtain ⟨s, hs⟩ := planPath0_toJs_ok p
    rw [hs]
    exact ⟨_, rfl⟩
  · unfold tmplFileWriteError
    obtain ⟨s, hs⟩ := planPath0_toJs_ok p
    rw [hs]
    exact ⟨_, rfl⟩
  · unfold tmplShellError
    obtain ⟨s, hs⟩ := planCmd0_toJs_ok p
    rw [hs]
    exact ⟨_, rfl⟩
  · exact ⟨_, rfl⟩
  · exact ⟨_, rfl⟩
  · exact ⟨_, rfl⟩

/-- The RESPONDING stage of the deterministic path never throws, whichever
validation branch is taken. -/
theorem respond_ok (intent : String) (b : Bool) (v r2 : JsVal) (p : Plan) :
    ∃ s, (if b then tmplSuccess intent v p.toJs else tmplError intent r2 p.toJs) =
      Except.ok s := by
  cases b
  · exact tmplError_toJs_ok intent r2 p
  · exact tmplSuccess_toJs_ok intent v p

/-- The deterministic path always succeeds, increments only
`deterministicTasks`, and returns one step result per plan step. -/
theorem detPath_spec (cfg : OrchCfg) (c : Classification) (plan : Plan)
    (trace : List JsVal) (m : Metrics) :
    ∃ r, detPath cfg c plan trace m =
        .ok (r, { m with deterministicTasks := m.deterministicTasks + 1 }) ∧
      r.results = some (plan.steps.map (runStep cfg)) ∧
      r.error = none ∧ r.deterministic = true ∧ r.classification = some c := by
  unfold detPath
  dsimp only
  obtain ⟨s, hs⟩ := respond_ok c.intent _ _ _ plan
  rw [hs]
  exact ⟨_, rfl, rfl, rfl, rfl, rfl⟩

theorem executeModelPlan_ok (cfg : OrchCfg) (planJs : JsVal) (c : Classification)
    (trace : List JsVal) (m : Metrics) {r : ProcResult} {m' : Metrics}
    (h : executeModelPlan cfg planJs c trace m = .ok (r, m')) :
    r.error = none ∧ m' = m := by
  unfold executeModelPlan at h
  split at h
  · exact Except.noConfusion h
  · dsimp only at h
    split at h
    · exact Except.noConfusion h
    · rw [Except.ok.injEq, Prod.mk.injEq] at h
      obtain ⟨h1, h2⟩ := h
      subst h1
      exact ⟨rfl, h2.symm⟩

/-- The body of the `try` block: a normal completion never sets `error` and
never touches the `errors` counter; an escaping exception leaves `errors`
untouched for the catch to increment. -/
theorem processTry_spec (cfg : OrchCfg) (input : String) (m0 : Metrics) :
    (∀ r m', processTry cfg input m0 = .ok (r, m') →
      r.error = none ∧ m'.errors = m0.errors) ∧
    (∀ t, processTry cfg input m0 = .error t → t.metrics.errors = m0.errors) := by
  constructor
  · intro r m' h
    unfold processTry at h
    dsimp only at h
    split at h
    · -- model fallback
      unfold modelFallback at h
      dsimp only at h
      split at h
      · rw [Except.ok.injEq, Prod.mk.injEq] at h
        obtain ⟨h1, h2⟩ := h
        subst h1
        subst h2
        exact ⟨rfl, rfl⟩
      · split at h
        · exact Except.noConfusion h
        · rw [Except.ok.injEq, Prod.mk.injEq] at h
          obtain ⟨h1, h2⟩ := h
          subst h1
          subst h2
          exact ⟨rfl, rfl⟩
    · split at h
      · -- plan requires a model
        split at h
        · rw [Except.ok.injEq, Prod.mk.injEq] at h
          obtain ⟨h1, h2⟩ := h
          subst h1
          subst h2
          exact ⟨rfl, rfl⟩
        · split at h
          · rename_i rm heq
            rcases rm with ⟨r1, m1⟩
            rw [Except.ok.injEq, Prod.mk.injEq] at h
            obtain ⟨h1, h2⟩ := h
            subst h1
            subst h2
            have hh := executeModelPlan_ok cfg _ _ _ _ heq
            refine ⟨hh.1, ?_⟩
            rw [hh.2]
            rfl
          · exact Except.noConfusion h
      · -- deterministic path
        obtain ⟨rd, hd, hres, herr, hdet, hcls⟩ := detPath_spec cfg _ _ _ _
        rw [hd, Except.ok.injEq, Prod.mk.injEq] at h
        obtain ⟨h1, h2⟩ := h
        subst h1
        subst h2
        exact ⟨herr, rfl⟩
  · intro t h
    unfold processTry at h
    dsimp only at h
    split at h
    · unfold modelFallback at h
      dsimp only at h
      split at h
      · exact Except.noConfusion h
      · split at h
        · rw [Except.error.injEq] at h
          subst h
          rfl
        · exact Except.noConfusion h
    · split at h
      · split at h
        · exact Except.noConfusion h
        · split at h
          · exact Except.noConfusion h
          · rw [Except.error.injEq] at h
            subst h
            rfl
      · obtain ⟨rd, hd, hres, herr, hdet, hcls⟩ := detPath_spec cfg _ _ _ _
        rw [hd] at h
        exact Except.noConfusion h

/-- C4: `process()` never propagates an exception to its caller: either the
call completed normally (no `error` field, `errors` counter untouched), or
the single top-level catch produced `"Error in <state>: <message>"` with
`deterministic = false` and incremented the `errors` counter exactly
once. -/
theorem process_never_throws (cfg : OrchCfg) (input : String) (m : Metrics) :
    ((process cfg input m).1.error = none ∧ (process cfg input m).2.errors = m.errors) ∨
    (∃ st msg, (process cfg input m).1.response = "Error in " ++ st ++ ": " ++ msg ∧
      (process cfg input m).1.deterministic = false ∧
      (process cfg input m).1.error = some msg ∧
      (process cfg input m).2.errors = m.errors + 1) := by
  obtain ⟨hok, herr⟩ := processTry_spec cfg input { m with totalTasks := m.totalTasks + 1 }
  unfold process
  dsimp only
  split
  · rename_i rm heq
    rcases rm with ⟨r, m'⟩
    exact Or.inl (hok r m' heq)
  · rename_i t heq
    exact Or.inr ⟨t.state, t.msg, rfl, rfl, rfl, congrArg (· + 1) (herr t heq)⟩

/-- Counters untouched by every path of the `try` body: `totalTasks` and
the `byIntent` bump. -/
theorem processTry_base (cfg : OrchCfg) (input : String) (m0 : Metrics) :
    (∀ r m', processTry cfg input m0 = .ok (r, m') →
      m'.totalTasks = m0.totalTasks ∧
      m'.byIntent = bumpIntent m0.byIntent (classify input cfg.confidenceThreshold).intent) ∧
    (∀ t, processTry cfg input m0 = .error t →
      t.metrics.totalTasks = m0.totalTasks ∧
      t.metrics.byIntent =
        bumpIntent m0.byIntent (classify input cfg.confidenceThreshold).intent) := by
  constructor
  · intro r m' h
    unfold processTry at h
    dsimp only at h
    split at h
    · unfold modelFallback at h
      dsimp only at h
      split at h
      · rw [Except.ok.injEq, Prod.mk.injEq] at h
        obtain ⟨h1, h2⟩ := h
        subst h1
        subst h2
        exact ⟨rfl, rfl⟩
      · split at h
        · exact Except.noConfusion h
        · rw [Except.ok.injEq, Prod.mk.injEq] at h
          obtain ⟨h1, h2⟩ := h
          subst h1
          subst h2
          exact ⟨rfl, rfl⟩
    · split at h
      · split at h
        · rw [Except.ok.injEq, Prod.mk.injEq] at h
          obtain ⟨h1, h2⟩ := h
          subst h1
          subst h2
          exact ⟨rfl, rfl⟩
        · split at h
          · rename_i rm heq
            rcases rm with ⟨r1, m1⟩
            rw [Except.ok.injEq, Prod.mk.injEq] at h
            obtain ⟨h1, h2⟩ := h
            subst h1
            subst h2
            have hh := executeModelPlan_ok cfg _ _ _ _ heq
            rw [hh.2]
            exact ⟨rfl, rfl⟩
          · exact Except.noConfusion h
      · obtain ⟨rd, hd, hres, herr, hdet, hcls⟩ := detPath_spec cfg _ _ _ _
        rw [hd, Except.ok.injEq, Prod.mk.injEq] at h
        obtain ⟨h1, h2⟩ := h
        subst h1
        subst h2
        exact ⟨rfl, rfl⟩
  · intro t h
    unfold processTry at h
    dsimp only at h
    split at h
    · unfold modelFallback at h
      dsimp only at h
      split at h
      · exact Except.noConfusion h
      · split at h
        · rw [Except.error.injEq] at h
          subst h
          exact ⟨rfl, rfl⟩
        · exact Except.noConfusion h
    · split at h
      · split at h
        · exact Except.noConfusion h
        · split at h
          · exact Except.noConfusion h
          · rw [Except.error.injEq] at h
            subst h
            exact ⟨rfl, rfl⟩
      · obtain ⟨rd, hd, hres, herr, hdet, hcls⟩ := detPath_spec cfg _ _ _ _
        rw [hd] at h
        exact Except.noConfusion h

/-- C1 (amended): every `process()` call increments `totalTasks` and
`byIntent[intent]` exactly once; of the three counters
`deterministicTasks`/`modelFallbacks`/`errors`, the `no_pattern_match`
fallback path increments `modelFallbacks` (plus `errors` when the
delegated model call throws), the deterministic path increments
`deterministicTasks` only, and the requires-model-planning paths (with or
without a configured model adapter) increment none of the three —
`errors` only when the model-produced plan makes execution or response
templating throw. -/
theorem metrics_per_process_call (cfg : OrchCfg) (input : String) (m : Metrics) :
    (process cfg input m).2.totalTasks = m.totalTasks + 1 ∧
    (process cfg input m).2.byIntent =
      bumpIntent m.byIntent (classify input cfg.confidenceThreshold).intent ∧
    (if (classify input cfg.confidenceThreshold).needsModel &&
        (classify input cfg.confidenceThreshold).reason == "no_pattern_match" then
      (process cfg input m).2.modelFallbacks = m.modelFallbacks + 1 ∧
      (process cfg input m).2.deterministicTasks = m.deterministicTasks ∧
      (process cfg input m).2.errors = m.errors + (match cfg.model with
        | none => 0
        | some a =>
          match a.processAgentLoop input with
          | .ok _ => 0
          | .error _ => 1)
    else if (planFromIntent (classify input cfg.confidenceThreshold)
        input).requiresModelForPlanning then
      (process cfg input m).2.deterministicTasks = m.deterministicTasks ∧
      (process cfg input m).2.modelFallbacks = m.modelFallbacks ∧
      (match cfg.model with
        | none => (process cfg input m).2.errors = m.errors
        | some _ => (process cfg input m).2.errors = m.errors ∨
            (process cfg input m).2.errors = m.errors + 1)
    else
      (process cfg input m).2.deterministicTasks = m.deterministicTasks + 1 ∧
      (process cfg input m).2.modelFallbacks = m.modelFallbacks ∧
      (process cfg input m).2.errors = m.errors) := by
  obtain ⟨hbok, hberr⟩ := processTry_base cfg input { m with totalTasks := m.totalTasks + 1 }
  refine ⟨?_, ?_, ?_⟩
  · unfold process
    dsimp only
    split
    · rename_i rm heq
      rcases rm with ⟨r, m'⟩
      exact (hbok r m' heq).1
    · rename_i t heq
      exact (hberr t heq).1
  · unfold process
    dsimp only
    split
    · rename_i rm heq
      rcases rm with ⟨r, m'⟩
      exact (hbok r m' heq).2
    · rename_i t heq
      exact (hberr t heq).2
  · split
    · rename_i hcond1
      unfold process processTry
      dsimp only
      rw [if_pos hcond1]
      unfold modelFallback
      dsimp only
      cases hm : cfg.model with
      | none => refine ⟨?_, ?_, ?_⟩ <;> rfl
      | some a =>
        dsimp only
        cases hpal : a.processAgentLoop input with
        | error e => refine ⟨?_, ?_, ?_⟩ <;> rfl
        | ok v => refine ⟨?_, ?_, ?_⟩ <;> rfl
    · rename_i hcond1
      split
      · rename_i hcond2
        unfold process processTry
        dsimp only
        rw [if_neg hcond1, if_pos hcond2]
        cases hm : cfg.model with
        | none => refine ⟨?_, ?_, ?_⟩ <;> rfl
        | some a =>
          dsimp only
          split
          · rename_i rm heq
            split at heq
            · rename_i r1 heq2
              rw [Except.ok.injEq] at heq
              subst heq
              have hh := executeModelPlan_ok cfg _ _ _ _ heq2
              rw [hh.2]
              refine ⟨?_, ?_, Or.inl ?_⟩ <;> rfl
            · exact Except.noConfusion heq
          · rename_i t heq
            split at heq
            · exact Except.noConfusion heq
            · rw [Except.error.injEq] at heq
              subst heq
              refine ⟨?_, ?_, Or.inr ?_⟩ <;> rfl
      · rename_i hcond2
        unfold process processTry
        dsimp only
        rw [if_neg hcond1, if_neg hcond2]
        obtain ⟨rd, hd, hres, herr, hdet, hcls⟩ := detPath_spec cfg _ _ _ _
        rw [hd]
        exact ⟨rfl, rfl, rfl⟩

/-- C1 (counterexample): one `process()` call on `"npm test"` with no model
adapter configured: `totalTasks` and `byIntent` advance, but none of
`deterministicTasks`, `modelFallbacks`, `errors` is incremented —
contradicting "exactly one of the three is incremented on every path". -/
theorem metrics_increment_counterexample :
    (process { executeTool := fun _ _ => .ok .null, model := none, confidenceThreshold := 0.4 }
        "npm test" initialMetrics).2 =
      { totalTasks := 1, deterministicTasks := 0, modelFallbacks := 0,
        modelCallsForPlanning := 0, modelCallsForResponse := 0, errors := 0,
        byIntent := [("shell_command", 1)] } := by
  with_unfolding_all rfl

/-- C3: on the deterministic EXECUTING path, every plan step is run through
the injected executor in plan order; the results list has exactly one entry
per step, a throwing executor call is recorded as a failed step result with
its message, and the remaining steps still run. -/
theorem executing_runs_all_steps (cfg : OrchCfg) (input : String) (m : Metrics)
    (h1 : ((classify input cfg.confidenceThreshold).needsModel &&
      (classify input cfg.confidenceThreshold).reason == "no_pattern_match") = false)
    (h2 : (planFromIntent (classify input cfg.confidenceThreshold)
      input).requiresModelForPlanning = false) :
    (process cfg input m).1.results =
      some ((planFromIntent (classify input cfg.confidenceThreshold) input).steps.map
        (runStep cfg)) ∧
    ((planFromIntent (classify input cfg.confidenceThreshold) input).steps.map
      (runStep cfg)).length =
      (planFromIntent (classify input cfg.confidenceThreshold) input).steps.length ∧
    ∀ i (hi : i < (planFromIntent (classify input cfg.confidenceThreshold)
        input).steps.length),
      ((planFromIntent (classify input cfg.confidenceThreshold) input).steps.map
          (runStep cfg)).get ⟨i, by simpa using hi⟩ =
        match cfg.executeTool
            ((planFromIntent (classify input cfg.confidenceThreshold) input).steps.get
              ⟨i, hi⟩).tool
            ((planFromIntent (classify input cfg.confidenceThreshold) input).steps.get
              ⟨i, hi⟩).args with
        | .ok v =>
          { tool := ((planFromIntent (classify input cfg.confidenceThreshold)
              input).steps.get ⟨i, hi⟩).tool,
            args := ((planFromIntent (classify input cfg.confidenceThreshold)
              input).steps.get ⟨i, hi⟩).args,
            result := some v, error := none, success := true }
        | .error e =>
          { tool := ((planFromIntent (classify input cfg.confidenceThreshold)
              input).steps.get ⟨i, hi⟩).tool,
            args := ((planFromIntent (classify input cfg.confidenceThreshold)
              input).steps.get ⟨i, hi⟩).args,
            result := none, error := some e, success := false } := by
  refine ⟨?_, by simp, ?_⟩
  · unfold process processTry
    dsimp only
    rw [if_neg (by simp [h1]), if_neg (by simp [h2])]
    obtain ⟨rd, hd, hres, herr, hdet, hcls⟩ := detPath_spec cfg _ _ _ _
    rw [hd]
    exact hres
  · intro i hi
    rw [List.get_map]
    unfold runStep
    rfl

/-- C3 (witness): `"git status"` on an orchestrator whose injected executor
always throws `"boom"`. -/
theorem executing_runs_all_steps_witness :
    (((classify "git status" (0.4 : ℚ)).needsModel &&
      (classify "git status" (0.4 : ℚ)).reason == "no_pattern_match") = false) ∧
    ((planFromIntent (classify "git status" (0.4 : ℚ))
      "git status").requiresModelForPlanning = false) ∧
    ((process { executeTool := fun _ _ => .error "boom", model := none,
                confidenceThreshold := 0.4 } "git status" initialMetrics).1.results =
      some ((planFromIntent (classify "git status" (0.4 : ℚ)) "git status").steps.map
        (runStep { executeTool := fun _ _ => .error "boom", model := none,
                   confidenceThreshold := 0.4 }))) :=
  ⟨by with_unfolding_all rfl, by with_unfolding_all rfl,
    (executing_runs_all_steps
      { executeTool := fun _ _ => .error "boom", model := none, confidenceThreshold := 0.4 }
      "git status" initialMetrics (by with_unfolding_all rfl)
      (by with_unfolding_all rfl)).1⟩

set_option maxHeartbeats 800000 in
/-- C9: `"npm test"` classifies as `shell_command`, extracts no git
operation and no packages, plans with `requiresModelForPlanning = true`,
and on a fresh orchestrator with no model adapter `process` returns the
explanatory non-deterministic response without ever invoking the injected
tool executor (the result is independent of the executor and carries no
step results). -/
theorem npm_test_requires_model :
    (classify "npm test" 0.4).intent = "shell_command" ∧
    (extractEntities "npm test").gitOps = [] ∧
    (extractEntities "npm test").packages = [] ∧
    (planFromIntent (classify "npm test" 0.4) "npm test").requiresModelForPlanning = true ∧
    ∀ ex : String → JsVal → Except String JsVal,
      (process { executeTool := ex, model := none, confidenceThreshold := 0.4 }
          "npm test" initialMetrics).1.response =
        "I identified this as a \"shell_command\" task, but I need a model to complete the planning. Run with --provider ollama or --provider claude to enable model-assisted planning." ∧
      (process { executeTool := ex, model := none, confidenceThreshold := 0.4 }
          "npm test" initialMetrics).1.deterministic = false ∧
      (process { executeTool := ex, model := none, confidenceThreshold := 0.4 }
          "npm test" initialMetrics).1.results = none ∧
      ∀ ex' : String → JsVal → Except String JsVal,
        process { executeTool := ex, model := none, confidenceThreshold := 0.4 }
          "npm test" initialMetrics =
        process { executeTool := ex', model := none, confidenceThreshold := 0.4 }
          "npm test" initialMetrics := by
  have hproc : ∀ ex : String → JsVal → Except String JsVal,
      process { executeTool := ex, model := none, confidenceThreshold := 0.4 }
        "npm test" initialMetrics =
      ({ response := "I identified this as a \"shell_command\" task, but I need a model to complete the planning. Run with --provider ollama or --provider claude to enable model-assisted planning.",
         metrics := snapshot { totalTasks := 1, deterministicTasks := 0, modelFallbacks := 0,
                               modelCallsForPlanning := 0, modelCallsForResponse := 0, errors := 0,
                               byIntent := [("shell_command", 1)] },
         trace := [.obj [("state", .str "classifying"),
                     ("intent", .str "shell_command"), ("confidence", .num 0.4),
                     ("needsModel", .bool true), ("reason", .str "ambiguous_top_scores")],
                   .obj [("state", .str "planning"), ("steps", .num 0),
                     ("requiresModel", .bool true)]],
         deterministic := false },
       { totalTasks := 1, deterministicTasks := 0, modelFallbacks := 0,
         modelCallsForPlanning := 0, modelCallsForResponse := 0, errors := 0,
         byIntent := [("shell_command", 1)] }) := by
    intro ex
    with_unfolding_all rfl
  refine ⟨by with_unfolding_all rfl, by with_unfolding_all rfl, by with_unfolding_all rfl,
    by with_unfolding_all rfl, ?_⟩
  intro ex
  refine ⟨by rw [hproc ex], by rw [hproc ex], by rw [hproc ex], ?_⟩
  intro ex'
  rw [hproc ex, hproc ex']

end AgentV3
